import Mathlib

/-!
Verification of the fact-check orchestration pipeline of the
politweet-assistant repository (src/src/services/), against its
natural-language specification.

Shallow embedding conventions:
* Python floats are modelled as exact rationals (`ℚ`); machine rounding is
  outside the scope of this embedding.
* External collaborators (NLTK `sent_tokenize`, the media analyzers built on
  OCR/ASR libraries, `random`, `uuid`, `datetime.now`/`date.today`) are
  passed in explicitly as oracle parameters, mirroring the spec's treatment
  of them as boundary capabilities.
* Python exceptions are modelled with `Except String`; a `try/except`
  boundary becomes a `match` on the `Except` value.
* Dictionaries with a fixed key set are modelled as structures; keys that a
  code path may leave absent become `Option` fields.
-/

/-! ## Generic character / string helpers (Python `str` and `re` semantics) -/

/-- The Czech upper/lower case letter pairs occurring in this codebase.
Used to model Python's Unicode-aware `str.lower`/`str.upper` and the `\w`
class of `re` over the character repertoire the repository actually uses
(ASCII plus Czech diacritics). -/
def czPairs : List (Char × Char) :=
  [('Á', 'á'), ('Č', 'č'), ('Ď', 'ď'), ('É', 'é'), ('Ě', 'ě'), ('Í', 'í'),
   ('Ň', 'ň'), ('Ó', 'ó'), ('Ř', 'ř'), ('Š', 'š'), ('Ť', 'ť'), ('Ú', 'ú'),
   ('Ů', 'ů'), ('Ý', 'ý'), ('Ž', 'ž')]

/-- Python `str.lower` on one character (ASCII + Czech repertoire). -/
def lowerCzChar (c : Char) : Char :=
  if 'A' ≤ c ∧ c ≤ 'Z' then c.toLower
  else (((czPairs.find? (fun p => p.1 = c)).map (fun p => p.2)).getD c)

/-- Python `str.upper` on one character (ASCII + Czech repertoire). -/
def upperCzChar (c : Char) : Char :=
  if 'a' ≤ c ∧ c ≤ 'z' then c.toUpper
  else (((czPairs.find? (fun p => p.2 = c)).map (fun p => p.1)).getD c)

/-- Python `str.lower` (ASCII + Czech repertoire). -/
def lowerCz (s : String) : String := ⟨s.toList.map lowerCzChar⟩

/-- Python `str.upper` (ASCII + Czech repertoire). -/
def upperCz (s : String) : String := ⟨s.toList.map upperCzChar⟩

/-- Python regex `\w` (word character), over the ASCII + Czech repertoire:
letters, digits and underscore. -/
def isWordChar (c : Char) : Bool :=
  c.isAlphanum || c = '_' || czPairs.any (fun p => p.1 = c || p.2 = c)

/-- Whether the character at index `i` of `l` is a word character
(out-of-range positions count as non-word, as in `re`). -/
def wordAt (l : List Char) (i : Nat) : Bool :=
  match l.drop i with
  | [] => false
  | c :: _ => isWordChar c

/-- Python regex `\b` at position `i` of `l`: the characters on the two
sides of the position differ in word-character-ness. -/
def boundaryAt (l : List Char) (i : Nat) : Bool :=
  (if i = 0 then false else wordAt l (i - 1)) != wordAt l i

/-- The literal word `w` occurs at index `i` of `l`. -/
def occursAt (l w : List Char) (i : Nat) : Bool :=
  (l.drop i).take w.length == w

/-- Python `re.search(r'\b' + w + r'\b', s) is not None` for a literal
word `w` (which may contain spaces or `%`, as in the source's patterns). -/
def wordSearch (s w : String) : Bool :=
  let l := s.toList
  let wl := w.toList
  (List.range (l.length + 1)).any fun i =>
    occursAt l wl i && boundaryAt l i && boundaryAt l (i + wl.length)

/-- Python `re.search(r'\d+', s) is not None`. -/
def containsDigit (s : String) : Bool := s.toList.any Char.isDigit

/-- Python `re.search(r'[A-Z][a-z]+', s) is not None`: an ASCII capital
immediately followed by at least one ASCII lowercase letter. -/
def hasProperNoun : List Char → Bool
  | c1 :: c2 :: rest =>
      ('A' ≤ c1 && c1 ≤ 'Z' && 'a' ≤ c2 && c2 ≤ 'z') || hasProperNoun (c2 :: rest)
  | _ => false

/-- Python `re.search(r'[A-Z][a-z]+', s) is not None` on a string. -/
def containsProperNoun (s : String) : Bool := hasProperNoun s.toList

/-- Whether a string is empty (list-based model of Python truthiness of a
string). -/
def strIsEmpty (s : String) : Bool := s.toList.isEmpty

/-- Python `str.strip()`: drop whitespace from both ends. -/
def strip (s : String) : String :=
  ⟨((s.toList.dropWhile Char.isWhitespace).reverse.dropWhile Char.isWhitespace).reverse⟩

/-- Python `s.startswith(pre)`. -/
def strStartsWith (s pre : String) : Bool := occursAt s.toList pre.toList 0

/-- Python `s.endswith(suf)`. -/
def strEndsWith (s suf : String) : Bool :=
  suf.toList.length ≤ s.toList.length
    && occursAt s.toList suf.toList (s.toList.length - suf.toList.length)

/-- Python `s[n:]` (drop the first `n` characters). -/
def strDrop (s : String) (n : Nat) : String := ⟨s.toList.drop n⟩

/-- Fuel-bounded scanner for `str.split(sep)` with non-empty `sep`: emit
the accumulated run at each occurrence of `sep`. -/
def splitOnAux (sep : List Char) : Nat → List Char → List Char → List (List Char)
  | 0, acc, _ => [acc.reverse]
  | _ + 1, acc, [] => [acc.reverse]
  | fuel + 1, acc, c :: rest =>
      if occursAt (c :: rest) sep 0 then
        acc.reverse :: splitOnAux sep fuel [] ((c :: rest).drop sep.length)
      else splitOnAux sep fuel (c :: acc) rest

/-- Python `s.split(sep)` for a non-empty literal separator. -/
def pySplitOn (s sep : String) : List String :=
  (splitOnAux sep.toList (s.toList.length + 1) [] s.toList).map fun l => ⟨l⟩

/-- `sep.join(xs)` / `String.intercalate`. -/
def joinWith (sep : String) : List String → String
  | [] => ""
  | [x] => x
  | x :: rest => x ++ sep ++ joinWith sep rest

/-- Token counter for Python `len(s.split())`: counts maximal
non-whitespace runs; the flag records whether the previous character was
part of a run. -/
def countTokensAux : Bool → List Char → Nat
  | _, [] => 0
  | inWord, c :: rest =>
      if c.isWhitespace then countTokensAux false rest
      else (if inWord then 0 else 1) + countTokensAux true rest

/-- Python `len(s.split())`: number of maximal non-whitespace runs. -/
def tokenCount (s : String) : Nat := countTokensAux false s.toList

/-- Helper for `re.sub(r'\s+', ' ', text)`: collapse every whitespace run
into a single space. The flag records whether the previous character was
whitespace. -/
def collapseWsAux : Bool → List Char → List Char
  | _, [] => []
  | prevWs, c :: rest =>
      if c.isWhitespace then
        if prevWs then collapseWsAux true rest else ' ' :: collapseWsAux true rest
      else c :: collapseWsAux false rest

/-- Python `re.sub(r'\s+', ' ', text).strip()`. -/
def collapseAndStrip (s : String) : String :=
  let collapsed := collapseWsAux false s.toList
  let frontStripped := collapsed.dropWhile Char.isWhitespace
  ⟨(frontStripped.reverse.dropWhile Char.isWhitespace).reverse⟩

/-- Python `s in t` (substring containment). -/
def containsSub (t sub : String) : Bool :=
  let l := t.toList
  let wl := sub.toList
  (List.range (l.length + 1)).any fun i => occursAt l wl i

/-! ## TextAnalyzer (src/src/services/text_analyzer.py) -/

/-- A candidate claim as produced by `TextAnalyzer._identify_claims`:
sentence text, sentence index, and integer relevance score. -/
structure Claim where
  text : String
  position : Nat
  relevance_score : Nat
deriving DecidableEq

/-- The `claim_indicators` regex list of `_identify_claims`, as groups of
literal alternatives wrapped in `\b ... \b`. -/
def claimIndicators : List (List String) :=
  [["je", "jsou", "byl", "byla", "bylo", "byly"],
   ["má", "mají", "měl", "měla", "mělo", "měly"],
   ["podle", "dle"],
   ["studie", "výzkum", "analýza", "zpráva"],
   ["prokázal", "prokázala", "prokázalo", "prokázaly"],
   ["zjistil", "zjistila", "zjistilo", "zjistily"],
   ["tvrdí", "uvedl", "uvedla", "uvedlo", "uvedly"],
   ["fakt", "faktem", "fakta", "faktů"],
   ["procent", "%"],
   ["tisíc", "milion", "miliard"],
   ["v roce", "v letech"],
   ["vzrostl", "vzrostla", "vzrostlo", "vzrostly",
    "klesl", "klesla", "kleslo", "klesly"]]

/-- `any(re.search(pattern, sentence.lower()) for pattern in claim_indicators)`. -/
def matchesClaimIndicator (sentence : String) : Bool :=
  claimIndicators.any fun grp => grp.any fun w => wordSearch (lowerCz sentence) w

/-- The relevance score `_identify_claims` assigns to one sentence:
+2 for a claim-indicator match — but only when the sentence has at least
3 tokens (shorter sentences have `is_claim` forced to `False`) — plus
+1 for a digit, plus +1 for a capitalized token. -/
def scoreSentence (sentence : String) : Nat :=
  (if matchesClaimIndicator sentence ∧ 3 ≤ tokenCount sentence then 2 else 0)
    + (if containsDigit sentence then 1 else 0)
    + (if containsProperNoun sentence then 1 else 0)

/-- The `enumerate(sentences)` loop of `_identify_claims`, with `k` the
index of the first sentence of the remaining list: keep each sentence whose
relevance score is at least 1. -/
def identifyAux (k : Nat) : List String → List Claim
  | [] => []
  | s :: rest =>
      (if 1 ≤ scoreSentence s then [⟨s, k, scoreSentence s⟩] else [])
        ++ identifyAux (k + 1) rest

/-- `TextAnalyzer._identify_claims`. -/
def identifyClaims (sentences : List String) : List Claim := identifyAux 0 sentences

/-- One step of a stable descending insertion sort keyed by `key`: the new
element `x` passes over the elements with strictly greater key and lands in
front of the first element whose key is not greater. -/
def insertDescBy {α : Type} (key : α → ℚ) (x : α) : List α → List α
  | [] => [x]
  | y :: ys => if key x < key y then y :: insertDescBy key x ys else x :: y :: ys

/-- Python `sorted(l, key=key, reverse=True)`. Python's sort is stable and
a stable descending sort is unique as a function of the input, so this
insertion sort (which inserts each element in front of later elements with
an equal key) is exactly the source's sort. -/
def sortDescBy {α : Type} (key : α → ℚ) (l : List α) : List α :=
  l.foldr (insertDescBy key) []

/-- `TextAnalyzer._prioritize_claims`: stable descending sort by
`relevance_score`. -/
def prioritizeClaims (claims : List Claim) : List Claim :=
  sortDescBy (fun c => (c.relevance_score : ℚ)) claims

/-- `TextAnalyzer._get_claims_limit`: `limits.get(analysis_length, 5)`. -/
def claimsLimit (analysis_length : String) : Nat :=
  match analysis_length with
  | "brief" => 3
  | "standard" => 5
  | "detailed" => 8
  | "exhaustive" => 12
  | _ => 5

/-- `TextAnalyzer._create_summary`: a word-count bucket summary. -/
def taCreateSummary (text : String) : String :=
  let wc := tokenCount text
  if wc ≤ 50 then "Krátký text o délce " ++ toString wc ++ " slov."
  else if wc ≤ 200 then "Text střední délky obsahující " ++ toString wc ++ " slov."
  else "Dlouhý text obsahující " ++ toString wc ++ " slov."

/-- `TextAnalyzer._preprocess_text`: collapse whitespace and strip; the
source's second substitution `re.sub(r'["""]', '"', ...)` has a character
class consisting of three ASCII double quotes, so it maps `"` to `"` and is
the identity (embedded literally as such a map). -/
def preprocessText (text : String) : String :=
  let cleaned := collapseAndStrip text
  ⟨cleaned.toList.map (fun c => if c = '"' then '"' else c)⟩

/-- The result dictionary of `TextAnalyzer.analyze`: the `error` key is only
present on blank input, the `context` counters only on non-blank input. -/
structure TextAnalysis where
  error : Option String
  claims : List Claim
  summary : String
  context : Option (Nat × Nat × Nat)
deriving DecidableEq

/-- `TextAnalyzer.analyze`, with NLTK's `sent_tokenize` passed in as the
boundary capability `tok` (the only external dependency of the function).
The `expertise_level` argument is accepted and unused, as in the source. -/
def taAnalyze (tok : String → List String) (text : String)
    (_expertise_level analysis_length : String) : TextAnalysis :=
  if strIsEmpty text ∨ strIsEmpty (strip text) then
    { error := some "Prázdný vstupní text"
      claims := []
      summary := "Nebyl poskytnut žádný text k analýze."
      context := none }
  else
    let cleaned := preprocessText text
    let sentences := tok cleaned
    let claims := identifyClaims sentences
    let prioritized := prioritizeClaims claims
    let selected := prioritized.take (claimsLimit analysis_length)
    { error := none
      claims := selected
      summary := taCreateSummary cleaned
      context := some (sentences.length, claims.length, selected.length) }

/-! ## FactChecker data model (src/src/services/fact_checker.py) -/

/-- A simulated source reference, as in `FactChecker._simulate_sources`. -/
structure SourceRef where
  name : String
  url : String
  reliability : String
deriving DecidableEq

/-- The `possible_sources` list of `FactChecker._simulate_sources`. -/
def possibleSources : List SourceRef :=
  [⟨"Český statistický úřad", "https://www.czso.cz", "Velmi vysoká"⟩,
   ⟨"Ministerstvo zdravotnictví ČR", "https://www.mzcr.cz", "Vysoká"⟩,
   ⟨"ČT24", "https://ct24.ceskatelevize.cz", "Vysoká"⟩,
   ⟨"iROZHLAS", "https://www.irozhlas.cz", "Vysoká"⟩,
   ⟨"Aktuálně.cz", "https://www.aktualne.cz", "Střední"⟩]

/-- One entry of `FactChecker.truth_scale`: rating key, display name,
description, color and half-open score range `[lo, hi)` (the matching in
`_evaluate_overall_truth` is `score_min <= avg < score_max`). -/
structure Rating where
  key : String
  name : String
  description : String
  color : String
  lo : ℚ
  hi : ℚ
deriving DecidableEq

/-- `FactChecker.truth_scale`, in the source's (insertion-ordered) key
order. -/
def truthScale : List Rating :=
  [⟨"true", "Pravdivé",
    "Informace je zcela přesná, podložená důvěryhodnými zdroji a odpovídá současnému stavu poznání.",
    "#34A853", 9/10, 1⟩,
   ⟨"mostly_true", "Převážně pravdivé",
    "Informace je z větší části přesná, ale obsahuje drobné nepřesnosti, které nemění celkové vyznění.",
    "#4CAF50", 3/4, 9/10⟩,
   ⟨"partly_true", "Částečně pravdivé",
    "Informace obsahuje některé pravdivé prvky, ale také významné nepřesnosti nebo vynechává důležitý kontext.",
    "#FBBC05", 1/2, 3/4⟩,
   ⟨"mostly_false", "Převážně nepravdivé",
    "Informace obsahuje některé pravdivé prvky, ale je převážně nepřesná nebo zavádějící.",
    "#F57C00", 1/4, 1/2⟩,
   ⟨"false", "Nepravdivé",
    "Informace je zcela nepřesná, nepodložená důvěryhodnými zdroji nebo odporuje současnému stavu poznání.",
    "#EA4335", 0, 1/4⟩,
   ⟨"misleading", "Zavádějící",
    "Informace může být technicky pravdivá, ale je prezentována způsobem, který je zavádějící nebo manipulativní.",
    "#9C27B0", 3/10, 3/5⟩,
   ⟨"insufficient_evidence", "Nedostatečné údaje",
    "Nelze jednoznačně určit pravdivost informace kvůli nedostatku dostupných důvěryhodných zdrojů.",
    "#9AA0A6", 2/5, 3/5⟩,
   ⟨"unverifiable", "Neověřitelné",
    "Tvrzení nelze ověřit pomocí dostupných faktů nebo důkazů, často se jedná o spekulace o budoucnosti.",
    "#607D8B", 2/5, 3/5⟩,
   ⟨"satire", "Satira",
    "Obsah je záměrně nepravdivý nebo přehnaný za účelem humoru, parodie nebo společenské kritiky.",
    "#8D6E63", 3/10, 7/10⟩]

/-- `self.truth_scale[key]` (all lookups in the source use keys present in
the table; the default value is never reached on those). -/
def truthLookup (key : String) : Rating :=
  (truthScale.find? (fun r => r.key = key)).getD ⟨"", "", "", "", 0, 0⟩

/-- The four categories `_evaluate_overall_truth` skips during numeric
range matching. -/
def specialKeys : List String :=
  ["misleading", "insufficient_evidence", "unverifiable", "satire"]

/-- The five primary keys, in the order used by `random.choices` in
`_verify_claims` (the keys of its `probabilities` dict). -/
def primaryKeys : List String :=
  ["true", "mostly_true", "partly_true", "mostly_false", "false"]

/-- A claim as it enters `FactChecker._verify_claims`: the dict produced by
`_extract_claims`. Text claims carry a sentence position and an integer
relevance score; image/video visual-element claims carry `position = -1`, a
fractional relevance and a `visual_element` marker; video key-frame claims
carry a `timestamp`. Keys that may be absent are `Option`. -/
structure XClaim where
  text : String
  position : Int
  relevance_score : ℚ
  visual_element : Option Bool
  timestamp : Option ℚ
deriving DecidableEq

/-- Conversion of a `TextAnalyzer` claim into the orchestrator's claim
shape (same dict in the source; the typed embedding widens the fields). -/
def xOfClaim (c : Claim) : XClaim :=
  ⟨c.text, (c.position : Int), (c.relevance_score : ℚ), none, none⟩

/-- A verified claim as built by `FactChecker._verify_claims`; the trailing
fields are the keys inherited from the input claim by the
`for key, value in claim.items()` loop (absent keys stay absent). -/
structure VerifiedClaim where
  text : String
  rating : String
  rating_key : String
  score : ℚ
  color : String
  explanation : String
  sources : List SourceRef
  position : Option Int
  relevance_score : Option ℚ
  visual_element : Option Bool
  timestamp : Option ℚ
deriving DecidableEq

/-- The overall verdict dictionary returned by
`FactChecker._evaluate_overall_truth`. -/
structure Verdict where
  name : String
  key : String
  description : String
  color : String
  score : ℚ
deriving DecidableEq

/-- `claim.get('relevance_score', 1.0)`: the weight of a claim in
`_evaluate_overall_truth`. -/
def claimWeight (c : VerifiedClaim) : ℚ := c.relevance_score.getD 1

/-- The `for key, rating in self.truth_scale.items()` loop of
`_evaluate_overall_truth`: the first rating whose half-open range contains
`avg` and whose key is not one of the special categories (those hit the
`continue`). -/
def findRatingKey (avg : ℚ) : List Rating → Option String
  | [] => none
  | r :: rest =>
      if r.lo ≤ avg ∧ avg < r.hi ∧ r.key ∉ specialKeys then some r.key
      else findRatingKey avg rest

/-- Range matching plus the `if not rating_key` default of
`_evaluate_overall_truth` (`partly_true` for `avg ≥ 0.5`, else
`mostly_false`). -/
def selectRatingKey (avg : ℚ) : String :=
  (findRatingKey avg truthScale).getD (if 1/2 ≤ avg then "partly_true" else "mostly_false")

/-- `FactChecker._evaluate_overall_truth`. -/
def evaluateOverallTruth (verified_claims : List VerifiedClaim) : Verdict :=
  if verified_claims.isEmpty then
    { name := (truthLookup "insufficient_evidence").name
      key := "insufficient_evidence"
      description := (truthLookup "insufficient_evidence").description
      color := (truthLookup "insufficient_evidence").color
      score := 1/2 }
  else
    let total_score := (verified_claims.map (fun c => c.score * claimWeight c)).sum
    let total_weight := (verified_claims.map claimWeight).sum
    let avg_score := if 0 < total_weight then total_score / total_weight else 1/2
    let rating_key := selectRatingKey avg_score
    let rating := truthLookup rating_key
    { name := rating.name
      key := rating_key
      description := rating.description
      color := rating.color
      score := avg_score }

/-- The outcomes drawn from Python's `random` module by
`FactChecker._verify_claims` / `_simulate_sources`, one triple per claim
(indexed by the claim's position in the verified list):
`pick n` models the outcome of `random.choices` over the five primary keys
(each has positive probability, so any index is a possible outcome);
`unif n` models `random.random()` (a value in `[0, 1)`), with
`random.uniform(a, b) = a + (b - a) * random()`;
`sample n` models the outcome of `random.sample(possible_sources, 2)`. -/
structure Rng where
  pick : Nat → Fin 5
  unif : Nat → ℚ
  sample : Nat → List SourceRef

/-- `FactChecker._generate_claim_explanation`: a template keyed on the
rating's display name, with an expertise-level suffix. The `claim_text`
parameter is accepted and unused, as in the source. -/
def generateClaimExplanation (_claim_text : String) (rating : Rating)
    (expertise_level : String) : String :=
  let explanation :=
    if rating.name = "Pravdivé" then
      "Toto tvrzení je podloženo důvěryhodnými zdroji a odpovídá současnému stavu poznání."
    else if rating.name = "Převážně pravdivé" then
      "Toto tvrzení je z větší části přesné, ale obsahuje drobné nepřesnosti, které nemění celkové vyznění."
    else if rating.name = "Částečně pravdivé" then
      "Toto tvrzení obsahuje některé pravdivé prvky, ale také významné nepřesnosti nebo vynechává důležitý kontext."
    else if rating.name = "Převážně nepravdivé" then
      "Toto tvrzení obsahuje některé pravdivé prvky, ale je převážně nepřesné nebo zavádějící."
    else if rating.name = "Nepravdivé" then
      "Toto tvrzení je nepodložené důvěryhodnými zdroji nebo odporuje současnému stavu poznání."
    else if rating.name = "Zavádějící" then
      "Toto tvrzení může být technicky pravdivé, ale je prezentováno způsobem, který je zavádějící nebo manipulativní."
    else if rating.name = "Nedostatečné údaje" then
      "Pro toto tvrzení není dostatek dostupných důvěryhodných zdrojů k jednoznačnému určení pravdivosti."
    else if rating.name = "Neověřitelné" then
      "Toto tvrzení nelze ověřit pomocí dostupných faktů nebo důkazů."
    else if rating.name = "Satira" then
      "Toto tvrzení je součástí satirického obsahu a není zamýšleno jako faktické sdělení."
    else
      "Hodnocení tohoto tvrzení vyžaduje další výzkum."
  if expertise_level = "expert" then
    explanation ++ " Při hodnocení byla zohledněna metodologická triangulace a epistemologické limity dostupných zdrojů."
  else if expertise_level = "advanced" then
    explanation ++ " Hodnocení zohledňuje širší kontext a metodologické aspekty ověřování."
  else explanation

/-- Verification of a single claim in `FactChecker._verify_claims`, with
`n` the index of the claim's random draws: a primary rating key is chosen
by weighted sampling, the score is `random.uniform(score_min, score_max)`,
and the remaining keys of the input claim are inherited. -/
def verifyOne (rng : Rng) (expertise_level : String) (n : Nat) (c : XClaim) :
    VerifiedClaim :=
  let rating_key := primaryKeys.getD (rng.pick n).val ""
  let rating := truthLookup rating_key
  let score := rating.lo + (rating.hi - rating.lo) * rng.unif n
  { text := c.text
    rating := rating.name
    rating_key := rating_key
    score := score
    color := rating.color
    explanation := generateClaimExplanation c.text rating expertise_level
    sources := rng.sample n
    position := some c.position
    relevance_score := some c.relevance_score
    visual_element := c.visual_element
    timestamp := c.timestamp }

/-- The loop of `FactChecker._verify_claims`, consuming one random draw
triple per claim. -/
def verifyClaimsAux (rng : Rng) (expertise_level : String) (n : Nat) :
    List XClaim → List VerifiedClaim
  | [] => []
  | c :: rest => verifyOne rng expertise_level n c
      :: verifyClaimsAux rng expertise_level (n + 1) rest

/-- `FactChecker._verify_claims` (the `analysis_length` parameter of the
source is accepted and unused there). -/
def verifyClaims (rng : Rng) (expertise_level : String)
    (claims : List XClaim) : List VerifiedClaim :=
  verifyClaimsAux rng expertise_level 0 claims

/-- The deduplication loop of `FactChecker._identify_sources`: keep each
source whose URL has not been seen yet, preserving order. -/
def dedupeSources (seen : List String) : List SourceRef → List SourceRef
  | [] => []
  | s :: rest =>
      if s.url ∈ seen then dedupeSources seen rest
      else s :: dedupeSources (s.url :: seen) rest

/-- `FactChecker._identify_sources`: concatenate the sources of all
verified claims (the `sources` key is always present on them) and
deduplicate by URL. -/
def identifySources (verified_claims : List VerifiedClaim) : List SourceRef :=
  dedupeSources [] (verified_claims.flatMap (fun c => c.sources))

/-- One of the fixed perspectives of
`FactChecker._identify_alternative_perspectives`. -/
structure Perspective where
  title : String
  description : String
  ptype : String
deriving DecidableEq

/-- The four fixed perspectives, in generation order. -/
def allPerspectives : List Perspective :=
  [⟨"Ekonomická perspektiva",
    "Z ekonomického hlediska je třeba zvážit dlouhodobé dopady na trh práce a hospodářský růst.",
    "economic"⟩,
   ⟨"Sociální perspektiva",
    "Ze sociálního hlediska je důležité zohlednit dopady na různé skupiny obyvatel a sociální soudržnost.",
    "social"⟩,
   ⟨"Environmentální perspektiva",
    "Z environmentálního hlediska je třeba zvážit dopady na životní prostředí a udržitelnost.",
    "environmental"⟩,
   ⟨"Historická perspektiva",
    "Z historického hlediska lze podobné situace najít v minulosti a poučit se z jejich vývoje.",
    "historical"⟩]

/-- `FactChecker._identify_alternative_perspectives`: the first `count`
fixed perspectives, `count` keyed on the analysis length (default 2). -/
def alternativePerspectives (analysis_length : String) : List Perspective :=
  let count := match analysis_length with
    | "brief" => 1
    | "standard" => 2
    | "detailed" => 3
    | "exhaustive" => 4
    | _ => 2
  allPerspectives.take count

/-- A suggested response of `FactChecker._generate_suggested_responses`. -/
structure Response where
  rtype : String
  text : String
  icon : String
deriving DecidableEq

/-- `FactChecker._generate_suggested_responses`. -/
def suggestedResponses (truth_rating : Verdict) : List Response :=
  let informative :=
    "Podle dostupných informací je toto tvrzení " ++ lowerCz truth_rating.name ++ ". "
      ++ (if truth_rating.key = "true" ∨ truth_rating.key = "mostly_true" then
            "Fakta potvrzují správnost tohoto tvrzení."
          else if truth_rating.key = "partly_true" then
            "Tvrzení obsahuje některé pravdivé prvky, ale také nepřesnosti nebo zavádějící informace."
          else if truth_rating.key = "mostly_false" ∨ truth_rating.key = "false" then
            "Fakta nepotvrzují správnost tohoto tvrzení."
          else if truth_rating.key = "misleading" then
            "Ačkoliv některé části mohou být technicky pravdivé, celkové vyznění je zavádějící."
          else "")
  let educational :=
    "Je důležité si uvědomit, že "
      ++ (if truth_rating.key = "true" ∨ truth_rating.key = "mostly_true" then
            "ověřování informací z důvěryhodných zdrojů je klíčové pro formování informovaných názorů."
          else if truth_rating.key = "partly_true" ∨ truth_rating.key = "misleading" then
            "i částečně pravdivé informace mohou být zavádějící, pokud jsou vytrženy z kontextu."
          else if truth_rating.key = "mostly_false" ∨ truth_rating.key = "false" then
            "dezinformace se často šíří rychleji než pravdivé informace, proto je důležité být kritický k obsahu, který sdílíme."
          else "")
  let base := [⟨"informative", informative, "info"⟩, ⟨"educational", educational, "school"⟩]
  if truth_rating.key ≠ "insufficient_evidence" ∧ truth_rating.key ≠ "unverifiable" then
    let humorous :=
      if truth_rating.key = "true" ∨ truth_rating.key = "mostly_true" then
        "Tohle je tak pravdivé, že by to mohlo kandidovat na prezidenta Pravdivosti."
      else if truth_rating.key = "partly_true" then
        "Tohle tvrzení je jako napůl upečený koláč - některé části jsou hotové, jiné ještě potřebují trochu času v troubě faktů."
      else if truth_rating.key = "mostly_false" ∨ truth_rating.key = "false" then
        "Toto tvrzení má s pravdou společného asi tolik jako ananas na pizze s italskou kuchyní."
      else if truth_rating.key = "misleading" then
        "Toto tvrzení je jako GPS, která vás zavede na správnou ulici, ale do špatného města."
      else ""
    base ++ [⟨"humorous", humorous, "mood"⟩]
  else base

/-- `FactChecker._generate_detailed_explanation`. -/
def generateDetailedExplanation (verified_claims : List VerifiedClaim)
    (truth_rating : Verdict) (expertise_level analysis_length : String) : String :=
  let base :=
    "Analyzovaný obsah byl ohodnocen jako " ++ upperCz truth_rating.name ++ ". "
      ++ truth_rating.description ++ " "
  let withCounts :=
    if verified_claims.isEmpty then base
    else
      let true_claims := verified_claims.filter
        (fun c => c.rating_key = "true" ∨ c.rating_key = "mostly_true")
      let false_claims := verified_claims.filter
        (fun c => c.rating_key = "false" ∨ c.rating_key = "mostly_false")
      let mixed_claims := verified_claims.filter
        (fun c => c.rating_key ≠ "true" ∧ c.rating_key ≠ "mostly_true"
          ∧ c.rating_key ≠ "false" ∧ c.rating_key ≠ "mostly_false")
      base ++ "Z celkového počtu " ++ toString verified_claims.length
        ++ " ověřených tvrzení " ++ "bylo " ++ toString true_claims.length
        ++ " hodnoceno jako pravdivé nebo převážně pravdivé, "
        ++ toString false_claims.length
        ++ " jako nepravdivé nebo převážně nepravdivé "
        ++ "a " ++ toString mixed_claims.length
        ++ " jako částečně pravdivé nebo jinak klasifikované. "
  let withLength :=
    if analysis_length = "detailed" ∨ analysis_length = "exhaustive" then
      withCounts
        ++ "\n\nPři hodnocení byla zohledněna důvěryhodnost zdrojů, kontext informací a aktuální stav poznání v dané oblasti. "
        ++ (if truth_rating.key = "partly_true" ∨ truth_rating.key = "misleading" then
              "Zvláštní pozornost byla věnována kontextu, ve kterém byly informace prezentovány, a způsobu, jakým mohou být interpretovány různými skupinami příjemců. "
            else "")
        ++ "\n\nPro komplexní pochopení tématu doporučujeme prostudovat detailní analýzu jednotlivých tvrzení a seznámit se s alternativními perspektivami uvedenými níže."
    else withCounts
  if expertise_level = "expert" then
    withLength
      ++ "\n\nMetodologie hodnocení zahrnovala triangulaci informací z různých zdrojů, analýzu primárních dat a konzultaci s odbornými zdroji v dané oblasti. Při interpretaci výsledků je třeba zohlednit inherentní nejistotu spojenou s procesem fact-checkingu a možné limity dostupných zdrojů."
  else withLength

/-- `FactChecker._extract_key_points`: sort the verified claims by
`claim.get('relevance_score', 0)` (stable descending), keep the top
`point_counts` entries and render each as a line. -/
def extractKeyPoints (verified_claims : List VerifiedClaim)
    (expertise_level analysis_length : String) : List String :=
  let max_points := match analysis_length with
    | "brief" => 3
    | "standard" => 5
    | "detailed" => 8
    | "exhaustive" => 12
    | _ => 5
  let sorted_claims := sortDescBy (fun c => c.relevance_score.getD 0) verified_claims
  let top_claims := sorted_claims.take max_points
  top_claims.map fun c =>
    let point := c.text ++ " - " ++ c.rating
    if (expertise_level = "advanced" ∨ expertise_level = "expert") then
      point ++ ": " ++ c.explanation
    else point

/-! ## SourceEvaluator (src/src/services/source_evaluator.py) -/

/-- Gregorian leap year test. -/
def isLeapYear (y : Nat) : Bool :=
  (y % 4 = 0 && y % 100 ≠ 0) || y % 400 = 0

/-- Cumulative day count before the first day of month `m` in a
non-leap year (`m` between 1 and 12). -/
def cumDaysBeforeMonth (m : Nat) : Nat :=
  match m with
  | 1 => 0 | 2 => 31 | 3 => 59 | 4 => 90 | 5 => 120 | 6 => 151
  | 7 => 181 | 8 => 212 | 9 => 243 | 10 => 273 | 11 => 304 | _ => 334

/-- Number of days of month `m` of year `y`. -/
def daysInMonth (y m : Nat) : Nat :=
  if m = 2 then (if isLeapYear y then 29 else 28)
  else if m = 4 ∨ m = 6 ∨ m = 9 ∨ m = 11 then 30
  else 31

/-- A proleptic-Gregorian day number for a civil date (models the ordinal
underlying Python `datetime.date`, so that differences of two such numbers
are exactly `(d2 - d1).days`). -/
def toDays (y m d : Nat) : Int :=
  (365 * (y - 1) + ((y - 1) / 4 - (y - 1) / 100 + (y - 1) / 400)
    + cumDaysBeforeMonth m
    + (if 3 ≤ m ∧ isLeapYear y then 1 else 0) + d : Nat)

/-- Python `int(s)` for an optionally signed decimal digit string (the
subset of `int` relevant to this codebase; surrounding whitespace is
accepted, an empty digit sequence is rejected). -/
def pyInt (s : String) : Option Int :=
  let t := (strip s).toList
  let (sign, digits) :=
    match t with
    | '-' :: rest => ((-1 : Int), rest)
    | '+' :: rest => ((1 : Int), rest)
    | _ => ((1 : Int), t)
  if digits.isEmpty ∨ ¬ digits.all Char.isDigit then none
  else some (sign * (digits.foldl (fun acc c => 10 * acc + (c.toNat - '0'.toNat)) 0 : Nat))

/-- Python `datetime.datetime.strptime(s, '%Y-%m-%d').date()` as a day
number: three dash-separated decimal fields with a valid month and
day-of-month. `none` models the exception handled by the caller. -/
def parseDateDays (s : String) : Option Int :=
  match pySplitOn s "-" with
  | [ys, ms, ds] =>
      match pyInt ys, pyInt ms, pyInt ds with
      | some y, some m, some d =>
          if 0 < y ∧ 0 < m ∧ m ≤ 12 ∧ 0 < d ∧ d ≤ (daysInMonth y.toNat m.toNat : Int)
          then some (toDays y.toNat m.toNat d.toNat)
          else none
      | _, _, _ => none
  | _ => none

/-- A trusted-source registry entry
(`SourceEvaluator._load_trusted_sources_db`). -/
structure TrustedEntry where
  name : String
  stype : String
  reliability : ℚ
  expertise : ℚ
  transparency : ℚ
  independence : ℚ
  editorial_process : ℚ
  description : String
deriving DecidableEq

/-- The trusted-source registry, keyed by domain, in source order. -/
def trustedSourcesDB : List (String × TrustedEntry) :=
  [("ct24.ceskatelevize.cz",
    ⟨"ČT24", "news", 17/20, 4/5, 9/10, 17/20, 9/10,
     "Zpravodajský kanál České televize, veřejnoprávní médium."⟩),
   ("irozhlas.cz",
    ⟨"iROZHLAS", "news", 17/20, 4/5, 9/10, 17/20, 9/10,
     "Zpravodajský server Českého rozhlasu, veřejnoprávní médium."⟩),
   ("denik.cz",
    ⟨"Deník", "news", 3/4, 7/10, 3/4, 7/10, 3/4,
     "Zpravodajský server vydavatelství Vltava Labe Media."⟩),
   ("idnes.cz",
    ⟨"iDNES", "news", 7/10, 3/4, 7/10, 3/5, 3/4,
     "Zpravodajský server vydavatelství MAFRA."⟩),
   ("aktualne.cz",
    ⟨"Aktuálně.cz", "news", 4/5, 3/4, 4/5, 3/4, 4/5,
     "Zpravodajský server vydavatelství Economia."⟩),
   ("seznamzpravy.cz",
    ⟨"Seznam Zprávy", "news", 3/4, 7/10, 3/4, 7/10, 3/4,
     "Zpravodajský server společnosti Seznam.cz."⟩),
   ("vedavyzkum.cz",
    ⟨"Vědavýzkum.cz", "academic", 9/10, 19/20, 17/20, 9/10, 17/20,
     "Portál o vědě a výzkumu v České republice."⟩),
   ("osel.cz",
    ⟨"OSEL.cz", "academic", 17/20, 9/10, 4/5, 17/20, 4/5,
     "Objective Source E-Learning - portál o vědě a technice."⟩),
   ("sciencemag.org",
    ⟨"Science", "academic", 19/20, 49/50, 9/10, 9/10, 19/20,
     "Prestižní vědecký časopis vydávaný American Association for the Advancement of Science."⟩),
   ("nature.com",
    ⟨"Nature", "academic", 19/20, 49/50, 9/10, 9/10, 19/20,
     "Prestižní vědecký časopis vydávaný Springer Nature."⟩),
   ("mzcr.cz",
    ⟨"Ministerstvo zdravotnictví ČR", "government", 9/10, 17/20, 4/5, 7/10, 17/20,
     "Oficiální web Ministerstva zdravotnictví České republiky."⟩),
   ("czso.cz",
    ⟨"Český statistický úřad", "government", 19/20, 9/10, 17/20, 17/20, 9/10,
     "Oficiální web Českého statistického úřadu."⟩),
   ("europa.eu",
    ⟨"Evropská unie", "government", 9/10, 17/20, 4/5, 3/4, 17/20,
     "Oficiální web Evropské unie."⟩),
   ("demagog.cz",
    ⟨"Demagog.cz", "fact_checking", 17/20, 4/5, 9/10, 17/20, 17/20,
     "Český fact-checkingový projekt zaměřený na ověřování výroků politiků."⟩),
   ("factcheck.org",
    ⟨"FactCheck.org", "fact_checking", 9/10, 17/20, 9/10, 17/20, 9/10,
     "Americký fact-checkingový projekt Annenberg Public Policy Center."⟩),
   ("snopes.com",
    ⟨"Snopes", "fact_checking", 17/20, 4/5, 17/20, 4/5, 17/20,
     "Jeden z nejstarších fact-checkingových webů na internetu."⟩)]

/-- A problematic-source registry entry
(`SourceEvaluator._load_problematic_sources_db`). -/
structure ProblematicEntry where
  name : String
  ptype : String
  issues : List String
  reliability : ℚ
  description : String
deriving DecidableEq

/-- The problematic-source registry. -/
def problematicSourcesDB : List (String × ProblematicEntry) :=
  [("example-fake-news.com",
    ⟨"Example Fake News", "fake_news",
     ["Šíření dezinformací", "Nedostatek transparentnosti", "Žádný redakční proces"],
     1/10, "Známý zdroj dezinformací a falešných zpráv."⟩),
   ("conspiracy-theories.org",
    ⟨"Conspiracy Theories", "conspiracy",
     ["Šíření konspiračních teorií", "Nedostatek důkazů", "Manipulativní obsah"],
     3/20, "Web zaměřený na konspirační teorie bez faktických podkladů."⟩)]

/-- `SourceEvaluator._check_trusted_sources_db` (`dict.get`). -/
def checkTrusted (domain : String) : Option TrustedEntry :=
  (trustedSourcesDB.find? (fun p => p.1 = domain)).map (fun p => p.2)

/-- `SourceEvaluator._check_problematic_sources_db` (`dict.get`). -/
def checkProblematic (domain : String) : Option ProblematicEntry :=
  (problematicSourcesDB.find? (fun p => p.1 = domain)).map (fun p => p.2)

/-- The fixed simulated page metadata returned by
`SourceEvaluator._fetch_page_metadata` for every URL. -/
structure PageMetadata where
  title : String
  description : String
  site_name : String
  author : String
  published_date : String
  modified_date : String
  keywords : List String
  has_citations : Bool
  has_author_info : Bool
  has_about_page : Bool
  has_contact_info : Bool
  has_privacy_policy : Bool
  has_terms_of_service : Bool
  has_funding_info : Bool
deriving DecidableEq

/-- `SourceEvaluator._fetch_page_metadata` (a constant in the source; the
URL argument is unused). -/
def fetchPageMetadata : PageMetadata :=
  { title := "Příklad titulku stránky"
    description := "Příklad popisu stránky"
    site_name := "Příklad názvu webu"
    author := "Příklad autora"
    published_date := "2023-01-01"
    modified_date := "2023-01-02"
    keywords := ["příklad", "klíčová slova"]
    has_citations := true
    has_author_info := true
    has_about_page := true
    has_contact_info := true
    has_privacy_policy := true
    has_terms_of_service := true
    has_funding_info := true }

/-- Python `max(0.0, min(1.0, x))`. -/
def clamp01 (x : ℚ) : ℚ := max 0 (min 1 x)

/-- `SourceEvaluator._evaluate_expertise`. -/
def evaluateExpertise (domain : String) (meta : PageMetadata)
    (tsi : Option TrustedEntry) : ℚ :=
  match tsi with
  | some t => t.expertise
  | none =>
      let s : ℚ := 1/2
      let s := if meta.has_author_info then s + 1/10 else s
      let s :=
        if strEndsWith domain ".edu" ∨ strEndsWith domain ".gov" ∨ strEndsWith domain ".ac.uk"
        then s + 1/5
        else if strEndsWith domain ".org" then s + 1/10 else s
      clamp01 s

/-- `SourceEvaluator._evaluate_transparency`. -/
def evaluateTransparency (_domain : String) (meta : PageMetadata)
    (tsi : Option TrustedEntry) : ℚ :=
  match tsi with
  | some t => t.transparency
  | none =>
      let s : ℚ := 1/2
      let s := if meta.has_about_page then s + 1/10 else s
      let s := if meta.has_contact_info then s + 1/10 else s
      let s := if meta.has_funding_info then s + 1/5 else s
      let s := if meta.has_privacy_policy ∧ meta.has_terms_of_service then s + 1/10 else s
      clamp01 s

/-- `SourceEvaluator._evaluate_past_accuracy`. -/
def evaluatePastAccuracy (_domain : String) (tsi : Option TrustedEntry)
    (psi : Option ProblematicEntry) : ℚ :=
  match psi with
  | some p => p.reliability
  | none =>
      match tsi with
      | some t => t.reliability
      | none => 1/2

/-- `SourceEvaluator._evaluate_editorial_process`. -/
def evaluateEditorialProcess (domain : String) (meta : PageMetadata)
    (tsi : Option TrustedEntry) : ℚ :=
  match tsi with
  | some t => t.editorial_process
  | none =>
      let s : ℚ := 1/2
      let s :=
        if strEndsWith domain ".edu" ∨ strEndsWith domain ".gov" ∨ strEndsWith domain ".ac.uk"
        then s + 1/5 else s
      let s := if meta.has_author_info then s + 1/10 else s
      clamp01 s

/-- `SourceEvaluator._evaluate_independence`. -/
def evaluateIndependence (domain : String) (meta : PageMetadata)
    (tsi : Option TrustedEntry) (psi : Option ProblematicEntry) : ℚ :=
  match psi with
  | some _ => 1/5
  | none =>
      match tsi with
      | some t => t.independence
      | none =>
          let s : ℚ := 1/2
          let s := if meta.has_funding_info then s + 1/5 else s
          let s := if strEndsWith domain ".gov" then s - 1/10 else s
          clamp01 s

/-- `SourceEvaluator._evaluate_recency`, with the external
`datetime.date.today()` passed in as the day number `todayDays`. -/
def evaluateRecency (todayDays : Int) (meta : PageMetadata) : ℚ :=
  if strIsEmpty meta.published_date ∧ strIsEmpty meta.modified_date then 1/2
  else
    let date_str := if ¬ strIsEmpty meta.modified_date then meta.modified_date
                    else meta.published_date
    match parseDateDays date_str with
    | none => 1/2
    | some d =>
        let age_days := todayDays - d
        if age_days ≤ 7 then 1
        else if age_days ≤ 30 then 9/10
        else if age_days ≤ 90 then 4/5
        else if age_days ≤ 365 then 7/10
        else if age_days ≤ 730 then 1/2
        else if age_days ≤ 1825 then 3/10
        else 1/10

/-- `SourceEvaluator._evaluate_citation_quality`. -/
def evaluateCitationQuality (meta : PageMetadata) : ℚ :=
  if meta.has_citations then 4/5 else 2/5

/-- One factor's entry in `evaluation_factors`: score plus description. -/
structure FactorEval where
  score : ℚ
  description : String
deriving DecidableEq

/-- The seven-factor evaluation dictionary built by
`SourceEvaluator.evaluate_source` (every key is always set). -/
structure EvalFactors where
  expertise : FactorEval
  transparency : FactorEval
  past_accuracy : FactorEval
  editorial_process : FactorEval
  independence : FactorEval
  recency : FactorEval
  citation_quality : FactorEval
deriving DecidableEq

/-- `self.evaluation_weights`, in source (insertion) order. -/
def evaluationWeights : List (String × ℚ) :=
  [("expertise", 1/5), ("transparency", 3/20), ("past_accuracy", 1/5),
   ("editorial_process", 3/20), ("independence", 3/20), ("recency", 1/10),
   ("citation_quality", 1/20)]

/-- Factor lookup by weight name (the `factor in evaluation_factors` test of
`_calculate_reliability_score` always succeeds, since `evaluate_source`
populates all seven keys). -/
def factorScore (f : EvalFactors) (name : String) : ℚ :=
  if name = "expertise" then f.expertise.score
  else if name = "transparency" then f.transparency.score
  else if name = "past_accuracy" then f.past_accuracy.score
  else if name = "editorial_process" then f.editorial_process.score
  else if name = "independence" then f.independence.score
  else if name = "recency" then f.recency.score
  else f.citation_quality.score

/-- `SourceEvaluator._calculate_reliability_score`: weighted mean over the
available factors (all seven here), default 0.5 on zero total weight. -/
def calculateReliabilityScore (f : EvalFactors) : ℚ :=
  let weighted_sum := (evaluationWeights.map (fun p => factorScore f p.1 * p.2)).sum
  let weight_sum := (evaluationWeights.map (fun p => p.2)).sum
  if weight_sum = 0 then 1/2 else weighted_sum / weight_sum

/-- `SourceEvaluator._determine_reliability_level`. -/
def determineReliabilityLevel (reliability_score : ℚ) : String :=
  if 9/10 ≤ reliability_score then "Velmi vysoká důvěryhodnost"
  else if 3/4 ≤ reliability_score then "Vysoká důvěryhodnost"
  else if 3/5 ≤ reliability_score then "Střední důvěryhodnost"
  else if 2/5 ≤ reliability_score then "Nízká důvěryhodnost"
  else if 1/5 ≤ reliability_score then "Velmi nízká důvěryhodnost"
  else "Nedůvěryhodný zdroj"

/-- `SourceEvaluator._determine_source_type`. -/
def determineSourceType (domain : String) (_meta : PageMetadata) : String :=
  match checkTrusted domain with
  | some t => t.stype
  | none =>
      if strEndsWith domain ".gov" then "government"
      else if strEndsWith domain ".edu" ∨ strEndsWith domain ".ac.uk" then "academic"
      else if strEndsWith domain ".org" then "organization"
      else if containsSub domain "news" ∨ containsSub domain "zpravy" then "news"
      else "other"

/-- `SourceEvaluator._get_source_type_description`. -/
def sourceTypeDescription (source_type : String) : String :=
  if source_type = "news" then "Zpravodajský zdroj"
  else if source_type = "academic" then "Akademický zdroj"
  else if source_type = "government" then "Vládní zdroj"
  else if source_type = "organization" then "Organizace"
  else if source_type = "fact_checking" then "Fact-checkingová organizace"
  else if source_type = "other" then "Ostatní zdroj"
  else "Neznámý typ zdroje"

/-- The `source_info` sub-dictionary of the evaluation result. -/
structure SourceInfo where
  name : String
  description : String
  is_trusted : Bool
  is_problematic : Bool
  trusted_info : Option TrustedEntry
  problematic_info : Option ProblematicEntry
deriving DecidableEq

/-- The fixed expert-level addendum `SourceEvaluator._get_detailed_evaluation`
(`factor_weights` is `self.evaluation_weights`). -/
structure DetailedEval where
  methodology : String
  factor_weights : List (String × ℚ)
  confidence : ℚ
  limitations : String
deriving DecidableEq

/-- `SourceEvaluator._get_detailed_evaluation`. -/
def detailedEvaluation : DetailedEval :=
  { methodology := "Hodnocení bylo provedeno na základě analýzy domény, metadat stránky a porovnání s databází důvěryhodných a problematických zdrojů."
    factor_weights := evaluationWeights
    confidence := 4/5
    limitations := "Hodnocení je založeno na dostupných informacích a může se v čase měnit." }

/-- The standard-shaped evaluation result of
`SourceEvaluator.evaluate_source` (before expertise-level adaptation);
`detailed_evaluation` is attached only at the expert level. -/
structure FullEval where
  url : String
  domain : String
  reliability_score : ℚ
  reliability_level : String
  factors : EvalFactors
  source_type : String
  source_info : SourceInfo
  detailed_evaluation : Option DetailedEval
deriving DecidableEq

/-- The three result shapes `evaluate_source` can return: the invalid-URL
error dictionary, the simplified `basic` dictionary, or the full result. -/
inductive EvalOutput where
  | invalid (error : String) (reliability_score : ℚ) (reliability_level : String)
  | basic (url domain reliability_level source_type source_name : String)
  | full (e : FullEval)
deriving DecidableEq

/-- Python `urllib.parse.urlparse(url).scheme` for the URL shapes this
codebase produces (`scheme://netloc/path…`): the part before `://`,
lowercased; empty when there is no `://` separator. -/
def urlScheme (url : String) : String :=
  match pySplitOn url "://" with
  | pre :: _ :: _ => lowerCz pre
  | _ => ""

/-- Python `urllib.parse.urlparse(url).netloc` for `scheme://netloc/path…`
URLs: the part between `://` and the next `/`. -/
def urlNetloc (url : String) : String :=
  match pySplitOn url "://" with
  | _ :: rest :: _ => (pySplitOn rest "/").headD ""
  | _ => ""

/-- `SourceEvaluator._is_valid_url`: `all([result.scheme, result.netloc])`
(string truthiness = non-emptiness). -/
def isValidUrl (url : String) : Bool :=
  ¬ strIsEmpty (urlScheme url) ∧ ¬ strIsEmpty (urlNetloc url)

/-- `SourceEvaluator._extract_domain`: the netloc with a leading `www.`
stripped. -/
def extractDomain (url : String) : String :=
  let domain := urlNetloc url
  if strStartsWith domain "www." then strDrop domain 4 else domain

/-- `SourceEvaluator._get_expertise_description`. -/
def expertiseDescription (score : ℚ) : String :=
  if 9/10 ≤ score then "Zdroj má vynikající odbornost a kvalifikaci v dané oblasti."
  else if 3/4 ≤ score then "Zdroj má dobrou odbornost a kvalifikaci v dané oblasti."
  else if 3/5 ≤ score then "Zdroj má přiměřenou odbornost a kvalifikaci v dané oblasti."
  else if 2/5 ≤ score then "Zdroj má omezenou odbornost a kvalifikaci v dané oblasti."
  else if 1/5 ≤ score then "Zdroj má nízkou odbornost a kvalifikaci v dané oblasti."
  else "Zdroj nemá prokazatelnou odbornost a kvalifikaci v dané oblasti."

/-- `SourceEvaluator._get_transparency_description`. -/
def transparencyDescription (score : ℚ) : String :=
  if 9/10 ≤ score then "Zdroj je vysoce transparentní ohledně své metodologie, financování a potenciálních konfliktů zájmů."
  else if 3/4 ≤ score then "Zdroj je transparentní ohledně své metodologie, financování a potenciálních konfliktů zájmů."
  else if 3/5 ≤ score then "Zdroj je částečně transparentní ohledně své metodologie, financování a potenciálních konfliktů zájmů."
  else if 2/5 ≤ score then "Zdroj má omezenou transparentnost ohledně své metodologie, financování a potenciálních konfliktů zájmů."
  else if 1/5 ≤ score then "Zdroj má nízkou transparentnost ohledně své metodologie, financování a potenciálních konfliktů zájmů."
  else "Zdroj není transparentní ohledně své metodologie, financování a potenciálních konfliktů zájmů."

/-- `SourceEvaluator._get_past_accuracy_description`. -/
def pastAccuracyDescription (score : ℚ) : String :=
  if 9/10 ≤ score then "Zdroj má vynikající historii přesnosti a spolehlivosti publikovaných informací."
  else if 3/4 ≤ score then "Zdroj má dobrou historii přesnosti a spolehlivosti publikovaných informací."
  else if 3/5 ≤ score then "Zdroj má přiměřenou historii přesnosti a spolehlivosti publikovaných informací."
  else if 2/5 ≤ score then "Zdroj má smíšenou historii přesnosti a spolehlivosti publikovaných informací."
  else if 1/5 ≤ score then "Zdroj má problematickou historii přesnosti a spolehlivosti publikovaných informací."
  else "Zdroj má velmi špatnou historii přesnosti a spolehlivosti publikovaných informací."

/-- `SourceEvaluator._get_editorial_process_description`. -/
def editorialProcessDescription (score : ℚ) : String :=
  if 9/10 ≤ score then "Zdroj má vynikající redakční proces a kontrolní mechanismy."
  else if 3/4 ≤ score then "Zdroj má dobrý redakční proces a kontrolní mechanismy."
  else if 3/5 ≤ score then "Zdroj má přiměřený redakční proces a kontrolní mechanismy."
  else if 2/5 ≤ score then "Zdroj má omezený redakční proces a kontrolní mechanismy."
  else if 1/5 ≤ score then "Zdroj má minimální redakční proces a kontrolní mechanismy."
  else "Zdroj nemá prokazatelný redakční proces a kontrolní mechanismy."

/-- `SourceEvaluator._get_independence_description`. -/
def independenceDescription (score : ℚ) : String :=
  if 9/10 ≤ score then "Zdroj je vysoce nezávislý bez významných politických, komerčních nebo jiných zájmů."
  else if 3/4 ≤ score then "Zdroj je nezávislý s minimálními politickými, komerčními nebo jinými zájmy."
  else if 3/5 ≤ score then "Zdroj je částečně nezávislý s některými politickými, komerčními nebo jinými zájmy."
  else if 2/5 ≤ score then "Zdroj má omezenou nezávislost s významnými politickými, komerčními nebo jinými zájmy."
  else if 1/5 ≤ score then "Zdroj má nízkou nezávislost s výraznými politickými, komerčními nebo jinými zájmy."
  else "Zdroj není nezávislý a je silně ovlivněn politickými, komerčními nebo jinými zájmy."

/-- `SourceEvaluator._get_recency_description`. -/
def recencyDescription (score : ℚ) : String :=
  if 9/10 ≤ score then "Informace jsou velmi aktuální (méně než měsíc staré)."
  else if 3/4 ≤ score then "Informace jsou aktuální (méně než čtvrt roku staré)."
  else if 3/5 ≤ score then "Informace jsou relativně aktuální (méně než rok staré)."
  else if 2/5 ≤ score then "Informace jsou starší (1-2 roky)."
  else if 1/5 ≤ score then "Informace jsou zastaralé (2-5 let)."
  else "Informace jsou velmi zastaralé (více než 5 let)."

/-- `SourceEvaluator._get_citation_quality_description`. -/
def citationQualityDescription (score : ℚ) : String :=
  if 9/10 ≤ score then "Zdroj má vynikající kvalitu citací a odkazů na další zdroje."
  else if 3/4 ≤ score then "Zdroj má dobrou kvalitu citací a odkazů na další zdroje."
  else if 3/5 ≤ score then "Zdroj má přiměřenou kvalitu citací a odkazů na další zdroje."
  else if 2/5 ≤ score then "Zdroj má omezenou kvalitu citací a odkazů na další zdroje."
  else if 1/5 ≤ score then "Zdroj má nízkou kvalitu citací a odkazů na další zdroje."
  else "Zdroj nemá žádné citace nebo odkazy na další zdroje."

/-- `SourceEvaluator._adapt_output_to_expertise_level`. -/
def adaptOutput (result : FullEval) (expertise_level : String) : EvalOutput :=
  if expertise_level = "basic" then
    .basic result.url result.domain result.reliability_level
      (sourceTypeDescription result.source_type) result.source_info.name
  else if expertise_level = "expert" then
    .full { result with detailed_evaluation := some detailedEvaluation }
  else .full result

/-- `SourceEvaluator.evaluate_source`, with `datetime.date.today()` passed
in as `todayDays`. The body of the source's `try` never raises in this
embedding (the only internal exception, `strptime` failure, is handled
locally in `_evaluate_recency`), so the outer `except` branch is
unreachable and the function returns the computed result directly; the
invalid-URL dictionary is the `.invalid` shape. -/
def evaluateSource (todayDays : Int) (source_url : String)
    (expertise_level : String) : EvalOutput :=
  if ¬ isValidUrl source_url then
    .invalid "Neplatná URL adresa" 0 "Nehodnoceno"
  else
    let domain := extractDomain source_url
    let tsi := checkTrusted domain
    let psi := checkProblematic domain
    let meta := fetchPageMetadata
    let expertise_score := evaluateExpertise domain meta tsi
    let transparency_score := evaluateTransparency domain meta tsi
    let past_accuracy_score := evaluatePastAccuracy domain tsi psi
    let editorial_process_score := evaluateEditorialProcess domain meta tsi
    let independence_score := evaluateIndependence domain meta tsi psi
    let recency_score := evaluateRecency todayDays meta
    let citation_quality_score := evaluateCitationQuality meta
    let factors : EvalFactors :=
      { expertise := ⟨expertise_score, expertiseDescription expertise_score⟩
        transparency := ⟨transparency_score, transparencyDescription transparency_score⟩
        past_accuracy := ⟨past_accuracy_score, pastAccuracyDescription past_accuracy_score⟩
        editorial_process :=
          ⟨editorial_process_score, editorialProcessDescription editorial_process_score⟩
        independence := ⟨independence_score, independenceDescription independence_score⟩
        recency := ⟨recency_score, recencyDescription recency_score⟩
        citation_quality :=
          ⟨citation_quality_score, citationQualityDescription citation_quality_score⟩ }
    let reliability_score := calculateReliabilityScore factors
    let reliability_level := determineReliabilityLevel reliability_score
    let result : FullEval :=
      { url := source_url
        domain := domain
        reliability_score := reliability_score
        reliability_level := reliability_level
        factors := factors
        source_type := determineSourceType domain meta
        source_info :=
          { name := meta.site_name
            description := meta.description
            is_trusted := tsi.isSome
            is_problematic := psi.isSome
            trusted_info := tsi
            problematic_info := psi }
        detailed_evaluation := none }
    adaptOutput result expertise_level

/-- The reliability score carried by an evaluation result (`none` for the
basic shape, which drops the numeric score). -/
def evalReliabilityScore : EvalOutput → Option ℚ
  | .invalid _ s _ => some s
  | .basic _ _ _ _ _ => none
  | .full e => some e.reliability_score

/-- The reliability level carried by an evaluation result. -/
def evalReliabilityLevel : EvalOutput → String
  | .invalid _ _ lv => lv
  | .basic _ _ lv _ _ => lv
  | .full e => e.reliability_level

/-! ## OpenAIService response parsing (src/src/services/openai_service.py) -/

/-- A parsed JSON value (the result type of `json.loads` as used by
`_parse_analysis_response`; numbers are exact rationals). -/
inductive JsonVal where
  | jnull
  | jbool (b : Bool)
  | jnum (q : ℚ)
  | jstr (s : String)
  | jarr (xs : List JsonVal)
  | jobj (fields : List (String × JsonVal))

/-- JSON insignificant whitespace (space, tab, newline, carriage return). -/
def skipJsonWs (l : List Char) : List Char :=
  l.dropWhile fun c => c = ' ' ∨ c = '\t' ∨ c = '\n' ∨ c = '\r'

/-- Value of a hexadecimal digit. -/
def hexVal (c : Char) : Option Nat :=
  if '0' ≤ c ∧ c ≤ '9' then some (c.toNat - '0'.toNat)
  else if 'a' ≤ c ∧ c ≤ 'f' then some (c.toNat - 'a'.toNat + 10)
  else if 'A' ≤ c ∧ c ≤ 'F' then some (c.toNat - 'A'.toNat + 10)
  else none

/-- Body of a JSON string (after the opening quote), strict mode: raw
control characters are rejected, escapes `\" \\ \/ \b \f \n \r \t \uXXXX`
are decoded (astral surrogate pairing is outside the repertoire this
codebase uses). -/
def parseStringBody : List Char → List Char → Option (String × List Char)
  | [], _ => none
  | c :: rest, acc =>
      if c = '"' then some (⟨acc.reverse⟩, rest)
      else if c = '\\' then
        match rest with
        | [] => none
        | e :: rest2 =>
            if e = '"' then parseStringBody rest2 ('"' :: acc)
            else if e = '\\' then parseStringBody rest2 ('\\' :: acc)
            else if e = '/' then parseStringBody rest2 ('/' :: acc)
            else if e = 'b' then parseStringBody rest2 ('\x08' :: acc)
            else if e = 'f' then parseStringBody rest2 ('\x0c' :: acc)
            else if e = 'n' then parseStringBody rest2 ('\n' :: acc)
            else if e = 'r' then parseStringBody rest2 ('\r' :: acc)
            else if e = 't' then parseStringBody rest2 ('\t' :: acc)
            else if e = 'u' then
              match rest2 with
              | h1 :: h2 :: h3 :: h4 :: rest3 =>
                  match hexVal h1, hexVal h2, hexVal h3, hexVal h4 with
                  | some a, some b, some c', some d =>
                      let n := ((a * 16 + b) * 16 + c') * 16 + d
                      if h : n.isValidChar then
                        parseStringBody rest3 (Char.ofNatAux n h :: acc)
                      else none
                  | _, _, _, _ => none
              | _ => none
            else none
      else if c.toNat < 32 then none
      else parseStringBody rest (c :: acc)

/-- Decimal value of a digit list. -/
def digitsToNat (ds : List Char) : Nat :=
  ds.foldl (fun acc c => 10 * acc + (c.toNat - '0'.toNat)) 0

/-- A JSON number (`-?(0|[1-9][0-9]*)(\.[0-9]+)?([eE][+-]?[0-9]+)?`),
evaluated exactly in `ℚ`. -/
def parseNumber (l : List Char) : Option (ℚ × List Char) :=
  let (neg, l1) := match l with
    | '-' :: rest => (true, rest)
    | _ => (false, l)
  let intPart : Option (List Char × List Char) := match l1 with
    | '0' :: rest => some (['0'], rest)
    | c :: rest =>
        if '1' ≤ c ∧ c ≤ '9' then
          some (c :: rest.takeWhile Char.isDigit, rest.dropWhile Char.isDigit)
        else none
    | [] => none
  match intPart with
  | none => none
  | some (ids, r1) =>
      let fracPart : Option (List Char × List Char) := match r1 with
        | '.' :: rest =>
            let fs := rest.takeWhile Char.isDigit
            if fs.isEmpty then none else some (fs, rest.dropWhile Char.isDigit)
        | _ => some ([], r1)
      match fracPart with
      | none => none
      | some (fds, r2) =>
          let expPart : Option (Int × List Char) := match r2 with
            | 'e' :: rest | 'E' :: rest =>
                let (esign, erest) := match rest with
                  | '-' :: t => ((-1 : Int), t)
                  | '+' :: t => ((1 : Int), t)
                  | _ => ((1 : Int), rest)
                let eds := erest.takeWhile Char.isDigit
                if eds.isEmpty then none
                else some (esign * (digitsToNat eds : Int), erest.dropWhile Char.isDigit)
            | _ => some (0, r2)
          match expPart with
          | none => none
          | some (e, r3) =>
              let mantissa : ℚ := (digitsToNat (ids ++ fds) : ℚ)
              let q := mantissa * (10 : ℚ) ^ (e - (fds.length : Int))
              some (if neg then -q else q, r3)

mutual

/-- A JSON value, with leading whitespace allowed; fuel-bounded recursive
descent (callers supply fuel exceeding the input length, which is
sufficient since every recursive call follows at least one consumed
character). -/
def parseJsonValue : Nat → List Char → Option (JsonVal × List Char)
  | 0, _ => none
  | fuel + 1, l =>
      match skipJsonWs l with
      | [] => none
      | c :: rest =>
          if c = '\x7b' then
            match skipJsonWs rest with
            | '\x7d' :: rest2 => some (.jobj [], rest2)
            | rest2 => (parseJsonMembers fuel rest2).map fun p => (.jobj p.1, p.2)
          else if c = '[' then
            match skipJsonWs rest with
            | ']' :: rest2 => some (.jarr [], rest2)
            | rest2 => (parseJsonElements fuel rest2).map fun p => (.jarr p.1, p.2)
          else if c = '"' then
            (parseStringBody rest []).map fun p => (.jstr p.1, p.2)
          else if c = 't' then
            match rest with
            | 'r' :: 'u' :: 'e' :: r => some (.jbool true, r)
            | _ => none
          else if c = 'f' then
            match rest with
            | 'a' :: 'l' :: 's' :: 'e' :: r => some (.jbool false, r)
            | _ => none
          else if c = 'n' then
            match rest with
            | 'u' :: 'l' :: 'l' :: r => some (.jnull, r)
            | _ => none
          else if c = '-' ∨ c.isDigit then
            (parseNumber (c :: rest)).map fun p => (.jnum p.1, p.2)
          else none

/-- The members of a JSON object, positioned at the first key. -/
def parseJsonMembers : Nat → List Char → Option (List (String × JsonVal) × List Char)
  | 0, _ => none
  | fuel + 1, l =>
      match l with
      | '"' :: rest =>
          match parseStringBody rest [] with
          | none => none
          | some (key, r1) =>
              match skipJsonWs r1 with
              | ':' :: r2 =>
                  match parseJsonValue fuel r2 with
                  | none => none
                  | some (v, r3) =>
                      match skipJsonWs r3 with
                      | ',' :: r4 =>
                          (parseJsonMembers fuel (skipJsonWs r4)).map
                            fun p => ((key, v) :: p.1, p.2)
                      | '\x7d' :: r4 => some ([(key, v)], r4)
                      | _ => none
              | _ => none
      | _ => none

/-- The elements of a JSON array, positioned at the first element. -/
def parseJsonElements : Nat → List Char → Option (List JsonVal × List Char)
  | 0, _ => none
  | fuel + 1, l =>
      match parseJsonValue fuel l with
      | none => none
      | some (v, r1) =>
          match skipJsonWs r1 with
          | ',' :: r2 => (parseJsonElements fuel r2).map fun p => (v :: p.1, p.2)
          | ']' :: r2 => some ([v], r2)
          | _ => none

end

/-- Python `json.loads`: parse one JSON document and require only
whitespace to remain. -/
def jsonLoads (s : String) : Option JsonVal :=
  match parseJsonValue (2 * s.length + 2) s.toList with
  | some (v, rest) => if (skipJsonWs rest).isEmpty then some v else none
  | none => none

/-- First index of `c`, if any. -/
def findIdx (c : Char) : List Char → Option Nat
  | [] => none
  | x :: xs => if x = c then some 0 else (findIdx c xs).map (· + 1)

/-- Python `s.find(c)`: first index or `-1`. -/
def pyFind (l : List Char) (c : Char) : Int :=
  match findIdx c l with
  | some i => (i : Int)
  | none => -1

/-- Python `s.rfind(c)`: last index or `-1`. -/
def pyRfind (l : List Char) (c : Char) : Int :=
  match findIdx c l.reverse with
  | some i => (l.length : Int) - 1 - (i : Int)
  | none => -1

/-- Python `value.rstrip("%")`. -/
def rstripPercent (s : String) : String :=
  ⟨(s.toList.reverse.dropWhile (· = '%')).reverse⟩

/-- One line of the fallback scan of `_parse_analysis_response`: a line
containing `:` is split at the first colon; a `verdict`/`verdikt` key
overwrites the verdict, a `confidence`/`jistota` key overwrites the
confidence when `int(value.rstrip('%'))` parses (the `ValueError` is
swallowed by `pass`). -/
def scanLine (acc : String × Int) (line : String) : String × Int :=
  if containsSub line ":" then
    match pySplitOn line ":" with
    | [] => acc
    | [_] => acc
    | k :: rest =>
        let key := lowerCz (strip k)
        let value := strip (joinWith ":" rest)
        if key = "verdict" ∨ key = "verdikt" then (value, acc.2)
        else if key = "confidence" ∨ key = "jistota" then
          match pyInt (rstripPercent value) with
          | some n => (acc.1, n)
          | none => acc
        else acc
  else acc

/-- The manual fallback structure of `_parse_analysis_response`: defaults
`verdict = "nelze určit"`, `confidence = 0`, `explanation = content`,
empty lists, refined by the line scan. -/
def fallbackResult (content : String) : JsonVal :=
  let scanned := (pySplitOn content "\n").foldl scanLine ("nelze určit", 0)
  .jobj [("verdict", .jstr scanned.1),
         ("confidence", .jnum (scanned.2 : ℚ)),
         ("explanation", .jstr content),
         ("evidence", .jarr []),
         ("sources", .jarr []),
         ("logical_fallacies", .jarr []),
         ("manipulation_techniques", .jarr [])]

/-- Whether `_parse_analysis_response` finds a brace-delimited span:
`json_start >= 0 and json_end > json_start` with `json_start =
content.find('{')` and `json_end = content.rfind('}') + 1`. -/
def braceSpanFound (content : String) : Bool :=
  let l := content.toList
  0 ≤ pyFind l '\x7b' ∧ pyFind l '\x7b' < pyRfind l '\x7d' + 1

/-- The brace-delimited slice `content[json_start:json_end]`. -/
def braceSlice (content : String) : String :=
  let l := content.toList
  let json_start := pyFind l '\x7b'
  let json_end := pyRfind l '\x7d' + 1
  ⟨(l.drop json_start.toNat).take (json_end - json_start).toNat⟩

/-- `OpenAIService._parse_analysis_response`, applied to the message
content of the API response (the `response["choices"][0]["message"]
["content"]` extraction is modelled by its result). When a brace span is
found but `json.loads` fails, the `except json.JSONDecodeError` handler
re-raises `ValueError`, modelled as `.error`; otherwise the parsed value
or the line-scan fallback is returned. -/
def parseAnalysisResponse (content : String) : Except String JsonVal :=
  if braceSpanFound content then
    match jsonLoads (braceSlice content) with
    | some v => .ok v
    | none => .error "Odpověď API neobsahuje validní JSON."
  else .ok (fallbackResult content)

/-! ## FactCheckOrchestrator (FactChecker.check_facts and its pipeline) -/

/-- A visual element reported by the image analyzer (the fields
`_extract_claims` reads). -/
structure VisualElement where
  vtype : String
  confidence : Option ℚ
deriving DecidableEq

/-- A video key frame (the fields `_extract_claims` reads:
`frame['timestamp']` and `frame['analysis']['extracted_text']`). -/
structure KeyFrame where
  timestamp : ℚ
  extracted_text : Option String
deriving DecidableEq

/-- The union of the analyzer result dictionaries as consumed by
`FactChecker._extract_claims` and `_create_summary`; keys a given analyzer
may omit are `Option` fields (`audio_transcription` models
`content_analysis['audio_analysis']['transcription']` of the video
analyzer, with the outer `Option` for the `audio_analysis` key). -/
structure ContentAnalysis where
  error : Option String
  claims : Option (List XClaim)
  summary : Option String
  extracted_text : Option String
  visual_elements : Option (List VisualElement)
  transcription : Option String
  audio_transcription : Option (Option String)
  key_frames : Option (List KeyFrame)
deriving DecidableEq

/-- The text analyzer's result as a `ContentAnalysis` dictionary. -/
def contentOfTextAnalysis (a : TextAnalysis) : ContentAnalysis :=
  { error := a.error
    claims := some (a.claims.map xOfClaim)
    summary := some a.summary
    extracted_text := none
    visual_elements := none
    transcription := none
    audio_transcription := none
    key_frames := none }

/-- The external collaborators consumed by one `check_facts` run:
NLTK sentence tokenization, the `random` module outcomes, the media
analyzers (image/audio/video, built on external OCR/ASR/vision libraries
and treated as boundary adapters that either return an analysis dictionary
or raise), `uuid.uuid4()` (call-indexed), `datetime.now().isoformat()`
(call-indexed) and `datetime.date.today()` as a day number. -/
structure Externals where
  tok : String → List String
  rng : Rng
  imageAnalyze : String → String → String → Except String ContentAnalysis
  audioAnalyze : String → String → String → String → Except String ContentAnalysis
  videoAnalyze : String → String → String → String → Except String ContentAnalysis
  uuid : Nat → String
  now : Nat → String
  todayDays : Int

/-- `FactChecker._analyze_content`: dispatch on the content type; an
unsupported type raises `ValueError`. -/
def analyzeContent (ext : Externals) (content content_type language
    expertise_level analysis_length : String) : Except String ContentAnalysis :=
  if content_type = "text" then
    .ok (contentOfTextAnalysis (taAnalyze ext.tok content expertise_level analysis_length))
  else if content_type = "image" then
    ext.imageAnalyze content expertise_level analysis_length
  else if content_type = "audio" then
    ext.audioAnalyze content language expertise_level analysis_length
  else if content_type = "video" then
    ext.videoAnalyze content language expertise_level analysis_length
  else .error ("Nepodporovaný typ obsahu: " ++ content_type)

/-- The visual-element claims built by the image branch of
`_extract_claims`. -/
def visualElementClaims (elements : List VisualElement) : List XClaim :=
  elements.map fun e =>
    { text := "Obrázek obsahuje " ++ e.vtype ++ "."
      position := -1
      relevance_score := e.confidence.getD (1/2)
      visual_element := some true
      timestamp := none }

/-- The key-frame claims of the video branch of `_extract_claims`: each
frame with non-empty extracted text is re-analyzed by the text analyzer
(default expertise/length) and the frame's timestamp is attached to each
resulting claim. -/
def keyFrameClaims (ext : Externals) : List KeyFrame → List XClaim
  | [] => []
  | f :: rest =>
      (match f.extracted_text with
       | some t =>
           if ¬ strIsEmpty t then
             ((taAnalyze ext.tok t "medium" "standard").claims.map
               fun c => { xOfClaim c with timestamp := some f.timestamp })
           else []
       | none => []) ++ keyFrameClaims ext rest

/-- `FactChecker._extract_claims`. -/
def extractClaims (ext : Externals) (ca : ContentAnalysis) (content_type : String) :
    List XClaim :=
  if content_type = "text" then
    ca.claims.getD []
  else if content_type = "image" then
    (match ca.extracted_text with
     | some t =>
         if ¬ strIsEmpty t then
           (taAnalyze ext.tok t "medium" "standard").claims.map xOfClaim
         else []
     | none => [])
      ++ (match ca.visual_elements with
          | some els => visualElementClaims els
          | none => [])
  else if content_type = "audio" then
    match ca.transcription with
    | some t =>
        if ¬ strIsEmpty t then
          (taAnalyze ext.tok t "medium" "standard").claims.map xOfClaim
        else []
    | none => []
  else if content_type = "video" then
    (match ca.audio_transcription with
     | some (some t) =>
         if ¬ strIsEmpty t then
           (taAnalyze ext.tok t "medium" "standard").claims.map xOfClaim
         else []
     | _ => [])
      ++ (match ca.key_frames with
          | some frames => keyFrameClaims ext frames
          | none => [])
  else []

/-- A source merged with its evaluation as in `_evaluate_sources`
(`{**source, **evaluation}`; the typed embedding keeps the two dicts side
by side — their only shared key, `url`, carries the same value). -/
structure EvaluatedSource where
  source : SourceRef
  evaluation : EvalOutput
deriving DecidableEq

/-- `FactChecker._evaluate_sources`. -/
def evaluateSources (ext : Externals) (sources : List SourceRef)
    (expertise_level : String) : List EvaluatedSource :=
  sources.map fun s => ⟨s, evaluateSource ext.todayDays s.url expertise_level⟩

/-- `FactChecker._create_summary`. -/
def fcCreateSummary (ca : ContentAnalysis) (verified_claims : List VerifiedClaim)
    (content_type : String) : String :=
  if content_type = "text" then
    match ca.summary with
    | some s => s
    | none =>
        "Analýza textového obsahu s " ++ toString verified_claims.length
          ++ " ověřitelnými tvrzeními."
  else if content_type = "image" then
    "Analýza obrazového obsahu s " ++ toString verified_claims.length
      ++ " ověřitelnými tvrzeními."
  else if content_type = "audio" then
    "Analýza audio obsahu s " ++ toString verified_claims.length
      ++ " ověřitelnými tvrzeními."
  else if content_type = "video" then
    "Analýza video obsahu s " ++ toString verified_claims.length
      ++ " ověřitelnými tvrzeními."
  else
    "Analýza obsahu s " ++ toString verified_claims.length
      ++ " ověřitelnými tvrzeními."

/-- The result dictionary assembled by the `try` block of
`FactChecker.check_facts`. -/
structure Report where
  id : String
  timestamp : String
  content_type : String
  content_summary : String
  truth_rating : String
  truth_score : ℚ
  truth_color : String
  truth_description : String
  detailed_explanation : String
  key_points : List String
  claims : List VerifiedClaim
  sources : List EvaluatedSource
  alternative_perspectives : List Perspective
  suggested_responses : List Response
  settings_expertise_level : String
  settings_analysis_length : String
  settings_language : String
  metadata_processing_time : String
  metadata_version : String
deriving DecidableEq

/-- The two shapes `check_facts` can return: the full report, or the
error dictionary `{'error': …, 'id': …, 'timestamp': …}` built by the
`except` handler (which carries no truth rating and no analysis fields). -/
inductive FCResult where
  | report (r : Report)
  | failed (error : String) (id : String) (timestamp : String)
deriving DecidableEq

/-- The `try` block of `FactChecker.check_facts`: the full pipeline.
`uuid` call 0 is the report id; `now` calls 0 and 1 are the report
timestamp and the metadata processing time (the only raise point of the
embedding, `_analyze_content`, precedes every `now` call). -/
def checkFactsCore (ext : Externals) (content content_type language
    expertise_level analysis_length : String) : Except String Report := do
  let result_id := ext.uuid 0
  let content_analysis ←
    analyzeContent ext content content_type language expertise_level analysis_length
  let claims := extractClaims ext content_analysis content_type
  let verified_claims := verifyClaims ext.rng expertise_level claims
  let truth_rating := evaluateOverallTruth verified_claims
  let sources := identifySources verified_claims
  let evaluated_sources := evaluateSources ext sources expertise_level
  let alternative := alternativePerspectives analysis_length
  let responses := suggestedResponses truth_rating
  let summary := fcCreateSummary content_analysis verified_claims content_type
  pure
    { id := result_id
      timestamp := ext.now 0
      content_type := content_type
      content_summary := summary
      truth_rating := truth_rating.name
      truth_score := truth_rating.score
      truth_color := truth_rating.color
      truth_description := truth_rating.description
      detailed_explanation :=
        generateDetailedExplanation verified_claims truth_rating
          expertise_level analysis_length
      key_points := extractKeyPoints verified_claims expertise_level analysis_length
      claims := verified_claims
      sources := evaluated_sources
      alternative_perspectives := alternative
      suggested_responses := responses
      settings_expertise_level := expertise_level
      settings_analysis_length := analysis_length
      settings_language := language
      metadata_processing_time := ext.now 1
      metadata_version := "1.0" }

/-- `FactChecker.check_facts`: the `try/except Exception` boundary. On any
internal exception the handler returns the three-key error dictionary with
a freshly drawn `uuid` (call 1; call 0 was consumed by the `try` block
before any raise point) and timestamp. -/
def checkFacts (ext : Externals) (content content_type language
    expertise_level analysis_length : String) : FCResult :=
  match checkFactsCore ext content content_type language expertise_level
      analysis_length with
  | .ok r => .report r
  | .error e =>
      .failed ("Chyba při fact-checkingu: " ++ e) (ext.uuid 1) (ext.now 0)

/-! ## Auxiliary definitions for the statements below -/

/-- The ordering produced by a stable descending sort keyed by `key`, on
inputs whose `posk` values strictly increase: keys are non-increasing and
ties keep the original (position) order. -/
def SortKeyOrder {α : Type} (key : α → ℚ) (posk : α → Nat) (a b : α) : Prop :=
  key b ≤ key a ∧ (key a = key b → posk a < posk b)

/-- Whether a `check_facts` result is the full report shape. -/
def carriesReport : FCResult → Bool
  | .report _ => true
  | .failed _ _ _ => false

/-- Whether `_parse_analysis_response` returned normally. -/
def isOkResult : Except String JsonVal → Bool
  | .ok _ => true
  | .error _ => false

/-- Whether an evaluation result is the full (standard/expert) shape. -/
def evalIsFull : EvalOutput → Bool
  | .full _ => true
  | _ => false

/-- The domain carried by an evaluation result. -/
def evalDomain : EvalOutput → String
  | .invalid _ _ _ => ""
  | .basic _ d _ _ _ => d
  | .full e => e.domain

/-- The `is_trusted` flag of a full evaluation result. -/
def evalIsTrusted : EvalOutput → Bool
  | .full e => e.source_info.is_trusted
  | _ => false

/-- The registry-fed factor scores (expertise, transparency, past accuracy,
editorial process, independence) of a full evaluation result. -/
def evalFactorTuple : EvalOutput → Option (ℚ × ℚ × ℚ × ℚ × ℚ)
  | .full e => some (e.factors.expertise.score, e.factors.transparency.score,
      e.factors.past_accuracy.score, e.factors.editorial_process.score,
      e.factors.independence.score)
  | _ => none

/-- The recency factor score of a full evaluation result. -/
def evalRecencyScoreQ : EvalOutput → ℚ
  | .full e => e.factors.recency.score
  | _ => 0

/-- The numeric reliability score of an evaluation result (0 for the basic
shape, which drops it). -/
def evalScoreQ : EvalOutput → ℚ
  | .invalid _ s _ => s
  | .basic _ _ _ _ _ => 0
  | .full e => e.reliability_score

/-- The factor dictionary `evaluate_source` builds for
`https://www.czso.cz/report`: the five registry-fed scores of the `czso.cz`
trusted entry, parameterized by the (clock-dependent) recency score. -/
def czsoFactors (r : ℚ) : EvalFactors :=
  { expertise := ⟨9/10, expertiseDescription (9/10)⟩
    transparency := ⟨17/20, transparencyDescription (17/20)⟩
    past_accuracy := ⟨19/20, pastAccuracyDescription (19/20)⟩
    editorial_process := ⟨9/10, editorialProcessDescription (9/10)⟩
    independence := ⟨17/20, independenceDescription (17/20)⟩
    recency := ⟨r, recencyDescription r⟩
    citation_quality := ⟨4/5, citationQualityDescription (4/5)⟩ }

/-- The full evaluation result for `https://www.czso.cz/report` at
`medium` expertise, parameterized by the recency score. -/
def czsoFull (r : ℚ) : FullEval :=
  { url := "https://www.czso.cz/report"
    domain := "czso.cz"
    reliability_score := calculateReliabilityScore (czsoFactors r)
    reliability_level := determineReliabilityLevel (calculateReliabilityScore (czsoFactors r))
    factors := czsoFactors r
    source_type := "government"
    source_info :=
      { name := "Příklad názvu webu"
        description := "Příklad popisu stránky"
        is_trusted := true
        is_problematic := false
        trusted_info := checkTrusted "czso.cz"
        problematic_info := none }
    detailed_evaluation := none }

/-- A degenerate randomness oracle: always the first primary key, always
`random() = 0`, always an empty source sample. -/
def rngStub : Rng :=
  { pick := fun _ => 0
    unif := fun _ => 0
    sample := fun _ => [] }

/-- Concrete external collaborators for evaluating the orchestrator on
closed inputs: the tokenizer returns its input as the single sentence
(NLTK punkt on a one-sentence text), the media analyzers report a decoding
failure, and the uuid/clock streams are indexed constants. -/
def extStub : Externals :=
  { tok := fun t => [t]
    rng := rngStub
    imageAnalyze := fun _ _ _ => .error "image unavailable"
    audioAnalyze := fun _ _ _ _ => .error "audio unavailable"
    videoAnalyze := fun _ _ _ _ => .error "video unavailable"
    uuid := fun n => "uuid-" ++ toString n
    now := fun n => "now-" ++ toString n
    todayDays := toDays 2026 10 12 }

/-- A claim whose relevance weight is zero but whose score is 0.9. -/
def zeroWeightClaim : VerifiedClaim :=
  { text := "Tvrzení A.", rating := "Pravdivé", rating_key := "true"
    score := 9/10, color := "#34A853", explanation := "vysvětlení"
    sources := [], position := some 0, relevance_score := some 0
    visual_element := none, timestamp := none }

/-- A concrete verified claim (relevance 1, score 0.9). -/
def vclaimA : VerifiedClaim :=
  { text := "Tvrzení A.", rating := "Pravdivé", rating_key := "true"
    score := 9/10, color := "#34A853", explanation := "vysvětlení"
    sources := [], position := some 0, relevance_score := some 1
    visual_element := none, timestamp := none }

/-- A concrete verified claim (relevance 2, score 0.1). -/
def vclaimB : VerifiedClaim :=
  { text := "Tvrzení B.", rating := "Nepravdivé", rating_key := "false"
    score := 1/10, color := "#EA4335", explanation := "vysvětlení"
    sources := [], position := some 1, relevance_score := some 2
    visual_element := none, timestamp := none }

/-- A concrete extracted claim for exercising `_verify_claims`. -/
def xClaimStub : XClaim :=
  ⟨"Nezaměstnanost v roce 2023 vzrostla o 15 procent.", 0, 4, none, none⟩

/-- The five primary ratings in truth-scale order (the table minus the four
special categories). -/
def primaryRatings : List Rating :=
  truthScale.filter (fun r => r.key ∉ specialKeys)

/-! ## Lemmas about the stable descending sort -/

/-- Membership through one insertion step. -/
theorem mem_insertDescBy {α : Type} (key : α → ℚ) (x : α) (l : List α) (z : α) :
    z ∈ insertDescBy key x l ↔ z = x ∨ z ∈ l := by
  induction l with
  | nil => simp [insertDescBy]
  | cons y ys ih =>
      simp only [insertDescBy]
      split
      · simp only [List.mem_cons, ih]
        tauto
      · simp only [List.mem_cons]

/-- Membership through the sort. -/
theorem mem_sortDescBy {α : Type} (key : α → ℚ) (l : List α) (z : α) :
    z ∈ sortDescBy key l ↔ z ∈ l := by
  induction l with
  | nil => simp [sortDescBy]
  | cons y ys ih =>
      show z ∈ insertDescBy key y (sortDescBy key ys) ↔ _
      rw [mem_insertDescBy, ih]
      simp

/-- Inserting an element whose position precedes every position in a
sorted list preserves sortedness (keys non-increasing, ties in position
order). -/
theorem pairwise_insertDescBy {α : Type} (key : α → ℚ) (posk : α → Nat)
    (x : α) (l : List α) (hl : l.Pairwise (SortKeyOrder key posk))
    (hx : ∀ y ∈ l, posk x < posk y) :
    (insertDescBy key x l).Pairwise (SortKeyOrder key posk) := by
  induction l with
  | nil => simp [insertDescBy, SortKeyOrder]
  | cons y ys ih =>
      rcases List.pairwise_cons.mp hl with ⟨hy, hys⟩
      simp only [insertDescBy]
      split
      case isTrue hlt =>
        refine List.pairwise_cons.mpr ⟨?_, ih hys
          (fun z hz => hx z (List.mem_cons_of_mem _ hz))⟩
        intro z hz
        rcases (mem_insertDescBy key x ys z).mp hz with rfl | hzys
        · exact ⟨le_of_lt hlt, fun he => absurd he (ne_of_gt hlt)⟩
        · exact hy z hzys
      case isFalse hge =>
        refine List.pairwise_cons.mpr ⟨?_, hl⟩
        intro z hz
        rcases List.mem_cons.mp hz with rfl | hzys
        · exact ⟨le_of_not_lt hge, fun _ => hx z (List.mem_cons_self _ _)⟩
        · exact ⟨le_trans (hy z hzys).1 (le_of_not_lt hge),
            fun _ => hx z (List.mem_cons_of_mem _ hzys)⟩

/-- A stable descending sort of a list with strictly increasing positions
is sorted with ties in position order. -/
theorem pairwise_sortDescBy {α : Type} (key : α → ℚ) (posk : α → Nat)
    (l : List α) (hl : l.Pairwise (fun a b => posk a < posk b)) :
    (sortDescBy key l).Pairwise (SortKeyOrder key posk) := by
  induction l with
  | nil => simp [sortDescBy]
  | cons c cs ih =>
      rcases List.pairwise_cons.mp hl with ⟨hc, hcs⟩
      show (insertDescBy key c (sortDescBy key cs)).Pairwise _
      exact pairwise_insertDescBy key posk c _ (ih hcs)
        (fun z hz => hc z ((mem_sortDescBy key cs z).mp hz))

/-! ## Lemmas about claim identification -/

/-- Every claim produced from the tail of the sentence list has a position
at least the running index. -/
theorem identifyAux_position_ge (ss : List String) :
    ∀ (k : Nat), ∀ c ∈ identifyAux k ss, k ≤ c.position := by
  induction ss with
  | nil => intro k c hc; simp [identifyAux] at hc
  | cons s rest ih =>
      intro k c hc
      simp only [identifyAux, List.mem_append] at hc
      rcases hc with hc | hc
      · split at hc
        · simp at hc; subst hc; simp
        · simp at hc
      · exact le_trans (Nat.le_succ k) (ih (k + 1) c hc)

/-- The claims produced by `_identify_claims` carry strictly increasing
positions (the enumeration indices of the kept sentences). -/
theorem identifyAux_pairwise (ss : List String) :
    ∀ (k : Nat), (identifyAux k ss).Pairwise (fun a b => a.position < b.position) := by
  induction ss with
  | nil => intro k; simp [identifyAux]
  | cons s rest ih =>
      intro k
      simp only [identifyAux]
      refine List.pairwise_append.mpr ⟨?_, ih (k + 1), ?_⟩
      · split
        · simp
        · simp
      · intro a ha b hb
        have hb' := identifyAux_position_ge rest (k + 1) b hb
        split at ha
        · simp at ha; subst ha; simpa using lt_of_lt_of_le (Nat.lt_succ_self k) hb'
        · simp at ha

/-- Full characterization of membership in `identifyAux`. -/
theorem mem_identifyAux (ss : List String) :
    ∀ (k : Nat) (c : Claim), c ∈ identifyAux k ss ↔
      ∃ i s, ss[i]? = some s ∧ 1 ≤ scoreSentence s ∧ c = ⟨s, k + i, scoreSentence s⟩ := by
  induction ss with
  | nil => intro k c; simp [identifyAux]
  | cons s rest ih =>
      intro k c
      simp only [identifyAux, List.mem_append]
      constructor
      · rintro (hc | hc)
        · by_cases hs : 1 ≤ scoreSentence s
          · simp only [if_pos hs, List.mem_singleton] at hc
            exact ⟨0, s, by simp, hs, by simpa using hc⟩
          · simp [if_neg hs] at hc
        · rcases (ih (k + 1) c).mp hc with ⟨i, s', h1, h2, h3⟩
          refine ⟨i + 1, s', by simpa using h1, h2, ?_⟩
          rw [h3]
          simp only [Claim.mk.injEq, and_true, true_and]
          omega
      · rintro ⟨i, s', h1, h2, h3⟩
        cases i with
        | zero =>
            simp only [List.getElem?_cons_zero, Option.some.injEq] at h1
            subst h1
            left
            rw [if_pos h2]
            simpa using h3
        | succ j =>
            right
            apply (ih (k + 1) c).mpr
            refine ⟨j, s', by simpa using h1, h2, ?_⟩
            rw [h3]
            simp only [Claim.mk.injEq, and_true, true_and]
            omega

/-- The relevance score of a sentence with fewer than 3 tokens reduces to
its digit and capitalized-token bonuses (the +2 indicator bonus is denied). -/
theorem scoreSentence_short (s : String) (h : tokenCount s < 3) :
    scoreSentence s = (if containsDigit s then 1 else 0)
      + (if containsProperNoun s then 1 else 0) := by
  unfold scoreSentence
  rw [if_neg]
  · omega
  · rintro ⟨-, h3⟩
    omega

/-- C3 — corrected. In `_identify_claims`, a sentence with fewer than 3
tokens only loses the +2 claim-indicator bonus (`is_claim` is forced to
`False`); its digit and capitalized-token bonuses still count, so it is
kept as a claim exactly when it contains a digit or a capitalized token,
with relevance score equal to the sum of those two bonuses — it is not
unconditionally discarded as the spec states. -/
theorem ta_short_sentence_scoring (sentences : List String) (i : Nat) (s : String)
    (hs : sentences[i]? = some s) (hshort : tokenCount s < 3) :
    ((∃ c ∈ identifyClaims sentences, c.position = i) ↔
      (containsDigit s = true ∨ containsProperNoun s = true)) ∧
    (∀ c ∈ identifyClaims sentences, c.position = i →
      c.text = s ∧ c.relevance_score =
        (if containsDigit s then 1 else 0) + (if containsProperNoun s then 1 else 0)) := by
  have hmem := mem_identifyAux sentences 0
  have hsc := scoreSentence_short s hshort
  constructor
  · constructor
    · rintro ⟨c, hc, hpos⟩
      rcases (hmem c).mp hc with ⟨j, s', h1, h2, h3⟩
      have hj : j = i := by
        have : c.position = j := by rw [h3]; simp
        omega
      subst hj
      have hss : s' = s := by
        rw [hs] at h1
        exact (Option.some.inj h1).symm
      rw [hss, hsc] at h2
      by_cases hd : containsDigit s
      · exact Or.inl hd
      · by_cases hp : containsProperNoun s
        · exact Or.inr hp
        · simp [hd, hp] at h2
    · intro h
      have h1 : 1 ≤ scoreSentence s := by
        rw [hsc]
        rcases h with h | h <;> simp [h]
      refine ⟨⟨s, 0 + i, scoreSentence s⟩, (hmem _).mpr ⟨i, s, hs, h1, rfl⟩, ?_⟩
      simp
  · intro c hc hpos
    rcases (hmem c).mp hc with ⟨j, s', h1, h2, h3⟩
    have hj : j = i := by
      have : c.position = j := by rw [h3]; simp
      omega
    subst hj
    have hss : s' = s := by
      rw [hs] at h1
      exact (Option.some.inj h1).symm
    rw [h3, hss, hsc]
    exact ⟨rfl, rfl⟩

/-- C3 — counterexample to the claim as stated: the sentence
`"Obama won."` has only 2 tokens, yet `_identify_claims` keeps it (its
capitalized token earns relevance score 1 ≥ 1), and `analyze` returns it as
a claim (the tokenizer argument models NLTK punkt on a one-sentence text). -/
theorem ta_short_sentence_counterexample :
    tokenCount "Obama won." < 3 ∧
    identifyClaims ["Obama won."] = [⟨"Obama won.", 0, 1⟩] ∧
    (taAnalyze (fun t => [t]) "Obama won." "medium" "standard").claims
      = [⟨"Obama won.", 0, 1⟩] := by
  refine ⟨by decide, by decide, by decide⟩

/-- Witness for `ta_short_sentence_scoring` at the concrete input
`["Obama won."]`, index 0. -/
theorem ta_short_sentence_scoring_witness :
    ∃ c ∈ identifyClaims ["Obama won."], c.position = 0 :=
  (ta_short_sentence_scoring ["Obama won."] 0 "Obama won." (by decide)
    (by decide)).1.mpr (Or.inr (by decide))

/-- C6 — confirmed. For every input text (any tokenizer outcome) and every
analysis-length profile, `TextAnalyzer.analyze` returns a claim list sorted
by non-increasing relevance score, stable on ties (original sentence order,
i.e. increasing positions, is preserved among equal scores), of length at
most the profile's maximum, where the profile table is
brief 3 / standard 5 / detailed 8 / exhaustive 12 and any unknown profile
maps to 5. -/
theorem ta_analyze_sorted_and_bounded (tok : String → List String)
    (text expertise_level analysis_length : String) :
    ((taAnalyze tok text expertise_level analysis_length).claims).Pairwise
      (fun a b => b.relevance_score ≤ a.relevance_score ∧
        (a.relevance_score = b.relevance_score → a.position < b.position)) ∧
    (taAnalyze tok text expertise_level analysis_length).claims.length
      ≤ claimsLimit analysis_length ∧
    claimsLimit "brief" = 3 ∧ claimsLimit "standard" = 5 ∧
    claimsLimit "detailed" = 8 ∧ claimsLimit "exhaustive" = 12 ∧
    (analysis_length ∉ (["brief", "standard", "detailed", "exhaustive"] : List String)
      → claimsLimit analysis_length = 5) := by
  have hlimit : analysis_length ∉ (["brief", "standard", "detailed", "exhaustive"] : List String)
      → claimsLimit analysis_length = 5 := by
    intro h
    unfold claimsLimit
    split <;> simp_all
  have hmain : ((taAnalyze tok text expertise_level analysis_length).claims).Pairwise
      (SortKeyOrder (fun c : Claim => (c.relevance_score : ℚ)) (fun c => c.position)) ∧
      (taAnalyze tok text expertise_level analysis_length).claims.length
        ≤ claimsLimit analysis_length := by
    unfold taAnalyze
    split
    · exact ⟨List.Pairwise.nil, by simp⟩
    · constructor
      · apply List.Pairwise.sublist (List.take_sublist _ _)
        unfold prioritizeClaims
        exact pairwise_sortDescBy _ _ _ (identifyAux_pairwise _ 0)
      · exact List.length_take_le _ _
  refine ⟨hmain.1.imp ?_, hmain.2, rfl, rfl, rfl, rfl, hlimit⟩
  intro a b hab
  obtain ⟨h1, h2⟩ := hab
  simp only [] at h1 h2
  exact ⟨by exact_mod_cast h1, fun he => h2 (by exact_mod_cast he)⟩

/-- Witness for `ta_analyze_sorted_and_bounded`: an unknown profile name
maps to the default limit 5. -/
theorem ta_analyze_sorted_and_bounded_witness : claimsLimit "vlastní" = 5 :=
  (ta_analyze_sorted_and_bounded (fun t => [t]) "Text." "medium"
    "vlastní").2.2.2.2.2.2 (by decide)

/-- C7 — confirmed. Aggregating the empty claim list yields the
`insufficient_evidence` verdict with score 0.5; the aggregator is a pure
function of its input, so repeated calls return the identical result. -/
theorem aggregate_empty_insufficient :
    evaluateOverallTruth [] =
      { name := "Nedostatečné údaje"
        key := "insufficient_evidence"
        description := "Nelze jednoznačně určit pravdivost informace kvůli nedostatku dostupných důvěryhodných zdrojů."
        color := "#9AA0A6"
        score := 1/2 } ∧
    evaluateOverallTruth [] = evaluateOverallTruth [] := by
  refine ⟨by with_unfolding_all decide, rfl⟩

/-- C2 — counterexample to the claim as stated: a single claim with score
0.9 and relevance weight 0 has total weight 0, and `_evaluate_overall_truth`
then returns score 0.5 — not the unweighted mean 0.9 the spec promises. -/
theorem aggregate_zero_weight_counterexample :
    ([zeroWeightClaim].map claimWeight).sum = 0 ∧
    (evaluateOverallTruth [zeroWeightClaim]).score = 1/2 ∧
    ([zeroWeightClaim].map VerifiedClaim.score).sum
      / (([zeroWeightClaim].length : ℚ)) = 9/10 ∧
    (1/2 : ℚ) ≠ 9/10 := by
  refine ⟨by with_unfolding_all decide, by with_unfolding_all decide,
    by with_unfolding_all decide, by with_unfolding_all decide⟩

/-- C2 — amended. For a non-empty claim list: with positive total relevance
weight the overall score is the relevance-weighted mean
`Σ(score·weight) / Σ(weight)`; with zero total weight the code falls back
to the constant 0.5 (not to the unweighted mean). -/
theorem aggregate_score_formula (claims : List VerifiedClaim)
    (h : claims ≠ []) :
    ((claims.map claimWeight).sum = 0 →
      (evaluateOverallTruth claims).score = 1/2) ∧
    (0 < (claims.map claimWeight).sum →
      (evaluateOverallTruth claims).score =
        (claims.map (fun c => c.score * claimWeight c)).sum
          / (claims.map claimWeight).sum) := by
  have hne : claims.isEmpty = false := by
    cases claims with
    | nil => exact absurd rfl h
    | cons c cs => rfl
  constructor
  · intro hw
    simp only [evaluateOverallTruth, hne, Bool.false_eq_true, if_false, hw]
    norm_num
  · intro hw
    simp only [evaluateOverallTruth, hne, Bool.false_eq_true, if_false, if_pos hw]

/-- Witness for `aggregate_score_formula`: the zero-weight branch at the
concrete one-element list. -/
theorem aggregate_score_formula_witness :
    (evaluateOverallTruth [zeroWeightClaim]).score = 1/2 :=
  (aggregate_score_formula [zeroWeightClaim] (by simp)).1
    (by with_unfolding_all decide)

/-- C9 — confirmed. `_evaluate_overall_truth` is invariant under
permutations of the claim list: the weighted sums are permutation
invariant and every other step depends only on them (within the exact
rational arithmetic of this embedding). -/
theorem aggregate_perm_invariant (l₁ l₂ : List VerifiedClaim)
    (h : l₁.Perm l₂) :
    evaluateOverallTruth l₁ = evaluateOverallTruth l₂ := by
  have hs : (l₁.map (fun c => c.score * claimWeight c)).sum
      = (l₂.map (fun c => c.score * claimWeight c)).sum :=
    (h.map _).sum_eq
  have hw : (l₁.map claimWeight).sum = (l₂.map claimWeight).sum :=
    (h.map _).sum_eq
  have he : l₁.isEmpty = l₂.isEmpty := by
    have hlen := h.length_eq
    cases l₁ <;> cases l₂ <;> simp_all
  simp only [evaluateOverallTruth, hs, hw, he]

/-- Witness for `aggregate_perm_invariant`: swapping two concrete claims. -/
theorem aggregate_perm_invariant_witness :
    evaluateOverallTruth [vclaimA, vclaimB]
      = evaluateOverallTruth [vclaimB, vclaimA] :=
  aggregate_perm_invariant [vclaimA, vclaimB] [vclaimB, vclaimA]
    (List.Perm.swap vclaimB vclaimA [])

/-- The range-matching loop only ever returns a key that is primary,
whenever the scanned table's non-special keys are all primary. -/
theorem findRatingKey_primary (x : ℚ) :
    ∀ l : List Rating, (∀ r ∈ l, r.key ∉ specialKeys → r.key ∈ primaryKeys) →
      ∀ k, findRatingKey x l = some k → k ∈ primaryKeys := by
  intro l
  induction l with
  | nil => intro _ k hk; simp [findRatingKey] at hk
  | cons r rest ih =>
      intro hl k hk
      simp only [findRatingKey] at hk
      split at hk
      case isTrue h =>
        obtain rfl : r.key = k := Option.some.inj hk
        exact hl r (List.mem_cons_self _ _) h.2.2
      case isFalse h =>
        exact ih (fun r' hr' => hl r' (List.mem_cons_of_mem _ hr')) k hk

/-- C8 — confirmed. (a) The five primary score ranges are exactly the
consecutive half-open intervals of the subdivision
`0 < 1/4 < 1/2 < 3/4 < 9/10 < 1` of `[0, 1]` — mutually exclusive, and
jointly covering `[0, 1)` (the matching is `lo ≤ s < hi`, so the single
point `1` is handled by the explicit `partly_true`/`mostly_false` default
instead, per the code's boundary fallback); (b) the purely numeric
range-matching step (with its default) only ever selects one of the five
primary categories — the four special categories are skipped by the
`continue`. -/
theorem truth_scale_primary_ranges (x : ℚ) :
    (primaryRatings.map (fun r => (r.key, r.lo, r.hi)) =
      [("true", 9/10, 1), ("mostly_true", 3/4, 9/10), ("partly_true", 1/2, 3/4),
       ("mostly_false", 1/4, 1/2), ("false", 0, 1/4)]) ∧
    (∀ r ∈ primaryRatings, ∀ s ∈ primaryRatings, r ≠ s →
      r.lo ≤ x → x < r.hi → ¬ (s.lo ≤ x ∧ x < s.hi)) ∧
    (0 ≤ x → x < 1 → ∃ r ∈ primaryRatings, r.lo ≤ x ∧ x < r.hi) ∧
    selectRatingKey x ∈ primaryKeys := by
  refine ⟨by with_unfolding_all decide, ?_, ?_, ?_⟩
  · have hsep : ∀ r ∈ primaryRatings, ∀ s ∈ primaryRatings, r ≠ s →
        r.hi ≤ s.lo ∨ s.hi ≤ r.lo := by with_unfolding_all decide
    intro r hr s hs hne h1 h2 hcon
    rcases hsep r hr s hs hne with h | h <;> rcases hcon with ⟨h3, h4⟩ <;> linarith
  · intro h0 h1
    rcases lt_or_le x (1/4) with ha | ha
    · exact ⟨truthLookup "false", by with_unfolding_all decide,
        show (0 : ℚ) ≤ x ∧ x < 1/4 from ⟨h0, ha⟩⟩
    · rcases lt_or_le x (1/2) with hb | hb
      · exact ⟨truthLookup "mostly_false", by with_unfolding_all decide,
          show (1/4 : ℚ) ≤ x ∧ x < 1/2 from ⟨ha, hb⟩⟩
      · rcases lt_or_le x (3/4) with hc | hc
        · exact ⟨truthLookup "partly_true", by with_unfolding_all decide,
            show (1/2 : ℚ) ≤ x ∧ x < 3/4 from ⟨hb, hc⟩⟩
        · rcases lt_or_le x (9/10) with hd | hd
          · exact ⟨truthLookup "mostly_true", by with_unfolding_all decide,
              show (3/4 : ℚ) ≤ x ∧ x < 9/10 from ⟨hc, hd⟩⟩
          · exact ⟨truthLookup "true", by with_unfolding_all decide,
              show (9/10 : ℚ) ≤ x ∧ x < 1 from ⟨hd, h1⟩⟩
  · have hkeys : ∀ r ∈ truthScale, r.key ∉ specialKeys → r.key ∈ primaryKeys := by
      decide
    unfold selectRatingKey
    cases hfind : findRatingKey x truthScale with
    | some k => simpa using findRatingKey_primary x truthScale hkeys k hfind
    | none =>
        simp only [Option.getD]
        split_ifs <;> decide

/-- Witness for `truth_scale_primary_ranges`: the `true` range contains
0.92, so by mutual exclusivity the `mostly_true` range cannot. -/
theorem truth_scale_primary_ranges_witness :
    ¬ ((truthLookup "mostly_true").lo ≤ (92/100 : ℚ) ∧
        (92/100 : ℚ) < (truthLookup "mostly_true").hi) :=
  (truth_scale_primary_ranges (92/100)).2.1 (truthLookup "true")
    (by with_unfolding_all decide) (truthLookup "mostly_true")
    (by with_unfolding_all decide) (by with_unfolding_all decide)
    (by with_unfolding_all decide) (by with_unfolding_all decide)

/-- The single-claim step of `_verify_claims` lands its score inside the
half-open score range of the drawn rating key, given `random() ∈ [0, 1)`. -/
theorem verifyOne_score_in_range (rng : Rng) (expertise_level : String)
    (n : Nat) (c : XClaim) (hu : 0 ≤ rng.unif n ∧ rng.unif n < 1) :
    (truthLookup (verifyOne rng expertise_level n c).rating_key).lo
        ≤ (verifyOne rng expertise_level n c).score ∧
      (verifyOne rng expertise_level n c).score
        < (truthLookup (verifyOne rng expertise_level n c).rating_key).hi ∧
      0 ≤ (verifyOne rng expertise_level n c).score ∧
      (verifyOne rng expertise_level n c).score ≤ 1 := by
  obtain ⟨hu0, hu1⟩ := hu
  have h5 : (rng.pick n).val < 5 := (rng.pick n).isLt
  have hkeyeq : (verifyOne rng expertise_level n c).rating_key
      = primaryKeys.getD (rng.pick n).val "" := rfl
  have hscoreeq : (verifyOne rng expertise_level n c).score
      = (truthLookup (primaryKeys.getD (rng.pick n).val "")).lo
        + ((truthLookup (primaryKeys.getD (rng.pick n).val "")).hi
            - (truthLookup (primaryKeys.getD (rng.pick n).val "")).lo)
          * rng.unif n := rfl
  rw [hkeyeq, hscoreeq]
  have hfin : (rng.pick n).val = 0 ∨ (rng.pick n).val = 1 ∨ (rng.pick n).val = 2
      ∨ (rng.pick n).val = 3 ∨ (rng.pick n).val = 4 := by omega
  rcases hfin with hval | hval | hval | hval | hval <;> rw [hval]
  · have hlo : (truthLookup (primaryKeys.getD 0 "")).lo = 9/10 := by
      with_unfolding_all decide
    have hhi : (truthLookup (primaryKeys.getD 0 "")).hi = 1 := by
      with_unfolding_all decide
    rw [hlo, hhi]
    refine ⟨?_, ?_, ?_, ?_⟩ <;> linarith
  · have hlo : (truthLookup (primaryKeys.getD 1 "")).lo = 3/4 := by
      with_unfolding_all decide
    have hhi : (truthLookup (primaryKeys.getD 1 "")).hi = 9/10 := by
      with_unfolding_all decide
    rw [hlo, hhi]
    refine ⟨?_, ?_, ?_, ?_⟩ <;> linarith
  · have hlo : (truthLookup (primaryKeys.getD 2 "")).lo = 1/2 := by
      with_unfolding_all decide
    have hhi : (truthLookup (primaryKeys.getD 2 "")).hi = 3/4 := by
      with_unfolding_all decide
    rw [hlo, hhi]
    refine ⟨?_, ?_, ?_, ?_⟩ <;> linarith
  · have hlo : (truthLookup (primaryKeys.getD 3 "")).lo = 1/4 := by
      with_unfolding_all decide
    have hhi : (truthLookup (primaryKeys.getD 3 "")).hi = 1/2 := by
      with_unfolding_all decide
    rw [hlo, hhi]
    refine ⟨?_, ?_, ?_, ?_⟩ <;> linarith
  · have hlo : (truthLookup (primaryKeys.getD 4 "")).lo = 0 := by
      with_unfolding_all decide
    have hhi : (truthLookup (primaryKeys.getD 4 "")).hi = 1/4 := by
      with_unfolding_all decide
    rw [hlo, hhi]
    refine ⟨?_, ?_, ?_, ?_⟩ <;> linarith

/-- Membership in the verification loop starting at draw index `n`. -/
theorem mem_verifyClaimsAux (rng : Rng) (expertise_level : String) :
    ∀ (claims : List XClaim) (n : Nat) (v : VerifiedClaim),
      v ∈ verifyClaimsAux rng expertise_level n claims →
      ∃ m c, c ∈ claims ∧ v = verifyOne rng expertise_level m c := by
  intro claims
  induction claims with
  | nil => intro n v hv; simp [verifyClaimsAux] at hv
  | cons c rest ih =>
      intro n v hv
      rcases List.mem_cons.mp hv with rfl | hv'
      · exact ⟨n, c, List.mem_cons_self _ _, rfl⟩
      · rcases ih (n + 1) v hv' with ⟨m, c', hc', he⟩
        exact ⟨m, c', List.mem_cons_of_mem _ hc', he⟩

/-- C10 — confirmed. Every verified claim produced by `_verify_claims`
carries a score inside the half-open `score_range` of its own rating key
(hence inside `[0, 1]`), for every claim list and every outcome of the
internal sampling, given only that each `random()` draw lies in `[0, 1)`. -/
theorem verify_claims_score_in_range (rng : Rng) (expertise_level : String)
    (claims : List XClaim) (h : ∀ n, 0 ≤ rng.unif n ∧ rng.unif n < 1)
    (v : VerifiedClaim) (hv : v ∈ verifyClaims rng expertise_level claims) :
    (truthLookup v.rating_key).lo ≤ v.score ∧
      v.score < (truthLookup v.rating_key).hi ∧
      0 ≤ v.score ∧ v.score ≤ 1 := by
  rcases mem_verifyClaimsAux rng expertise_level claims 0 v hv with ⟨m, c, hc, rfl⟩
  exact verifyOne_score_in_range rng expertise_level m c (h m)

/-- Witness for `verify_claims_score_in_range` at a concrete claim and a
degenerate randomness oracle. -/
theorem verify_claims_score_in_range_witness :
    (truthLookup (verifyOne rngStub "medium" 0 xClaimStub).rating_key).lo
        ≤ (verifyOne rngStub "medium" 0 xClaimStub).score ∧
      (verifyOne rngStub "medium" 0 xClaimStub).score
        < (truthLookup (verifyOne rngStub "medium" 0 xClaimStub).rating_key).hi ∧
      0 ≤ (verifyOne rngStub "medium" 0 xClaimStub).score ∧
      (verifyOne rngStub "medium" 0 xClaimStub).score ≤ 1 :=
  verify_claims_score_in_range rngStub "medium" [xClaimStub]
    (fun _ => ⟨le_refl 0, by norm_num [rngStub]⟩)
    (verifyOne rngStub "medium" 0 xClaimStub)
    (List.mem_singleton.mpr rfl)

/-- C1 — counterexample to the claim as stated: on the unsupported content
type `"pdf"` the pipeline raises inside the `try` block, and `check_facts`
returns the three-key error dictionary `{'error', 'id', 'timestamp'}` —
which carries an `error` field but **no** truth rating at all (no
`insufficient_evidence` verdict, no report body). -/
theorem check_facts_error_counterexample :
    checkFacts extStub "Tvrzení." "pdf" "cs" "medium" "standard"
      = .failed "Chyba při fact-checkingu: Nepodporovaný typ obsahu: pdf"
          "uuid-1" "now-0" ∧
    carriesReport (checkFacts extStub "Tvrzení." "pdf" "cs" "medium" "standard")
      = false := by
  refine ⟨by with_unfolding_all decide, by with_unfolding_all decide⟩

/-- C1 — amended. Whenever the `try` block of `check_facts` raises, the
result is the error dictionary: it carries the `error` message (prefixed
`"Chyba při fact-checkingu: "`), a freshly drawn id and a timestamp, the
raw exception is never propagated (the embedding is a total function) —
but it is not report-shaped and carries no `insufficient_evidence`
verdict: no truth fields are present at all. -/
theorem check_facts_error_shape (ext : Externals)
    (content content_type language expertise_level analysis_length e : String)
    (h : checkFactsCore ext content content_type language expertise_level
      analysis_length = .error e) :
    checkFacts ext content content_type language expertise_level analysis_length
      = .failed ("Chyba při fact-checkingu: " ++ e) (ext.uuid 1) (ext.now 0) ∧
    carriesReport (checkFacts ext content content_type language expertise_level
      analysis_length) = false := by
  unfold checkFacts
  rw [h]
  exact ⟨rfl, rfl⟩

/-- Witness for `check_facts_error_shape` at the concrete unsupported
content type. -/
theorem check_facts_error_shape_witness :
    checkFacts extStub "Tvrzení." "pdf" "cs" "medium" "standard"
      = .failed ("Chyba při fact-checkingu: " ++ "Nepodporovaný typ obsahu: pdf")
          (extStub.uuid 1) (extStub.now 0) ∧
    carriesReport (checkFacts extStub "Tvrzení." "pdf" "cs" "medium" "standard")
      = false :=
  check_facts_error_shape extStub "Tvrzení." "pdf" "cs" "medium" "standard"
    "Nepodporovaný typ obsahu: pdf" rfl

/-- C4 — counterexample to the claim as stated: evaluated on 2026-10-12,
`https://www.czso.cz/report` matches the `czso.cz` trusted-registry entry,
yet the returned reliability score is the weighted composite 0.83 — pulled
down by the page-metadata recency and citation heuristics — and the level
is "Vysoká důvěryhodnost" (high), not the claimed very-high with
score ≥ 0.9. -/
theorem czso_reliability_counterexample :
    evalReliabilityScore
        (evaluateSource (toDays 2026 10 12) "https://www.czso.cz/report" "medium")
      = some (83/100) ∧
    evalReliabilityLevel
        (evaluateSource (toDays 2026 10 12) "https://www.czso.cz/report" "medium")
      = "Vysoká důvěryhodnost" ∧
    ¬ ((9/10 : ℚ) ≤ 83/100) ∧
    "Vysoká důvěryhodnost" ≠ "Velmi vysoká důvěryhodnost" := by
  refine ⟨by with_unfolding_all decide, by with_unfolding_all decide,
    by with_unfolding_all decide, by with_unfolding_all decide⟩

/-- `evaluate_source` on the czso URL at `medium` expertise returns the
full shape with the registry-fed factors and the clock-dependent recency
factor. -/
theorem czso_eval_via_recency (today : Int) :
    evaluateSource today "https://www.czso.cz/report" "medium"
      = .full (czsoFull (evaluateRecency today fetchPageMetadata)) := rfl

/-- After 2023-01-09 (more than 7 days past the simulated metadata date
2023-01-02), the recency factor for the fixed page metadata is one of the
five stale buckets, all at most 0.9. -/
theorem czso_recency_cases (today : Int) (h : 7 < today - toDays 2023 1 2) :
    evaluateRecency today fetchPageMetadata = 9/10 ∨
    evaluateRecency today fetchPageMetadata = 4/5 ∨
    evaluateRecency today fetchPageMetadata = 7/10 ∨
    evaluateRecency today fetchPageMetadata = 1/2 ∨
    evaluateRecency today fetchPageMetadata = 3/10 ∨
    evaluateRecency today fetchPageMetadata = 1/10 := by
  have h' : 7 < today - 738522 := h
  have hred : evaluateRecency today fetchPageMetadata
      = (if today - 738522 ≤ 7 then (1 : ℚ)
         else if today - 738522 ≤ 30 then 9/10
         else if today - 738522 ≤ 90 then 4/5
         else if today - 738522 ≤ 365 then 7/10
         else if today - 738522 ≤ 730 then 1/2
         else if today - 738522 ≤ 1825 then 3/10
         else 1/10) := rfl
  rw [hred]
  split_ifs with h1 h2 h3 h4 h5 h6
  · omega
  · exact Or.inl rfl
  · exact Or.inr (Or.inl rfl)
  · exact Or.inr (Or.inr (Or.inl rfl))
  · exact Or.inr (Or.inr (Or.inr (Or.inl rfl)))
  · exact Or.inr (Or.inr (Or.inr (Or.inr (Or.inl rfl))))
  · exact Or.inr (Or.inr (Or.inr (Or.inr (Or.inr rfl))))

/-- C4 — amended. For every evaluation date more than 7 days after the
simulated metadata date 2023-01-02 (every realistic run; the repository
postdates it): the URL is valid, `www.` is stripped, the `czso.cz`
trusted-registry entry is matched (`is_trusted`), and the five
registry-fed factor scores are taken directly from the registry
(0.90/0.85/0.95/0.90/0.85). But the reliability score is the weighted
composite `0.80 + recency/10` with the recency and citation factors coming
from page-metadata heuristics, so it stays below 0.9 and the level is
"Vysoká důvěryhodnost" (high) — not very-high, and not a score copied from
the registry. -/
theorem czso_registry_evaluation (today : Int)
    (h : 7 < today - toDays 2023 1 2) :
    evalIsFull (evaluateSource today "https://www.czso.cz/report" "medium") = true ∧
    evalDomain (evaluateSource today "https://www.czso.cz/report" "medium")
      = "czso.cz" ∧
    evalIsTrusted (evaluateSource today "https://www.czso.cz/report" "medium")
      = true ∧
    evalFactorTuple (evaluateSource today "https://www.czso.cz/report" "medium")
      = some (9/10, 17/20, 19/20, 9/10, 17/20) ∧
    evalScoreQ (evaluateSource today "https://www.czso.cz/report" "medium")
      = 4/5 + evalRecencyScoreQ
          (evaluateSource today "https://www.czso.cz/report" "medium") / 10 ∧
    evalScoreQ (evaluateSource today "https://www.czso.cz/report" "medium")
      < 9/10 ∧
    evalReliabilityLevel
        (evaluateSource today "https://www.czso.cz/report" "medium")
      = "Vysoká důvěryhodnost" := by
  rw [czso_eval_via_recency]
  rcases czso_recency_cases today h with hr | hr | hr | hr | hr | hr <;>
    rw [hr] <;>
    refine ⟨by with_unfolding_all decide, by with_unfolding_all decide,
      by with_unfolding_all decide, by with_unfolding_all decide,
      by with_unfolding_all decide, by with_unfolding_all decide,
      by with_unfolding_all decide⟩

/-- Witness for `czso_registry_evaluation` on 2026-10-12. -/
theorem czso_registry_evaluation_witness :
    evalScoreQ (evaluateSource (toDays 2026 10 12)
        "https://www.czso.cz/report" "medium") < 9/10 ∧
    evalReliabilityLevel (evaluateSource (toDays 2026 10 12)
        "https://www.czso.cz/report" "medium") = "Vysoká důvěryhodnost" :=
  ⟨(czso_registry_evaluation (toDays 2026 10 12) (by with_unfolding_all decide)).2.2.2.2.2.1,
   (czso_registry_evaluation (toDays 2026 10 12) (by with_unfolding_all decide)).2.2.2.2.2.2⟩

/-- C5 — counterexample to the claim as stated: the unparseable content
`"{invalid}"` contains a brace-delimited span, `json.loads` fails on it,
and `_parse_analysis_response` raises `ValueError` to its caller (the
`except json.JSONDecodeError` handler re-raises instead of degrading) —
no `insufficient_evidence` / score-0 result is produced. -/
theorem parse_response_raises_counterexample :
    parseAnalysisResponse "{invalid}"
      = .error "Odpověď API neobsahuje validní JSON." ∧
    isOkResult (parseAnalysisResponse "{invalid}") = false := by
  exact ⟨rfl, rfl⟩

/-- C5 — amended. When the content contains no brace-delimited span, the
parser does degrade to the best-effort line scan (defaults: verdict
`"nelze určit"`, confidence 0, explanation = the raw content) and returns
without raising; but when a brace-delimited span is present and fails JSON
parsing, the function raises `ValueError` to the caller instead of
returning an `insufficient_evidence`/score-0 result. -/
theorem parse_response_branches (content : String) :
    (braceSpanFound content = false →
      parseAnalysisResponse content = .ok (fallbackResult content)) ∧
    (braceSpanFound content = true →
      jsonLoads (braceSlice content) = none →
      parseAnalysisResponse content
        = .error "Odpověď API neobsahuje validní JSON.") := by
  constructor
  · intro h
    unfold parseAnalysisResponse
    rw [h]
    rfl
  · intro h hj
    unfold parseAnalysisResponse
    rw [h, hj]
    rfl

/-- Witness for `parse_response_branches`: the brace-free content
`"hello"` takes the fallback branch; `"{invalid}"` takes the raising
branch. -/
theorem parse_response_branches_witness :
    parseAnalysisResponse "hello" = .ok (fallbackResult "hello") ∧
    parseAnalysisResponse "{invalid}"
      = .error "Odpověď API neobsahuje validní JSON." :=
  ⟨(parse_response_branches "hello").1 rfl,
   (parse_response_branches "{invalid}").2 rfl rfl⟩
